import Mathlib

/-!
Verification of the Media hub server (videos, PDFs, audio recordings, WebGL
assets): a shallow embedding of the range-request streaming responder, the
CRUD route handlers and the in-memory `MemStorage` layer, translated from the
TypeScript source, together with proofs of the specified properties.
-/

namespace MediaHub

/-- Numeric value of a decimal digit character (`'7'` to `7`). -/
def digitVal (c : Char) : Nat := c.toNat - 48

/-- Decimal digit character for a value below ten, as JS number printing
(template literals such as the interpolation of `start`) produces it. -/
def digitChar (d : Nat) : Char :=
  match d with
  | 0 => '0'
  | 1 => '1'
  | 2 => '2'
  | 3 => '3'
  | 4 => '4'
  | 5 => '5'
  | 6 => '6'
  | 7 => '7'
  | 8 => '8'
  | 9 => '9'
  | _ => '*'

/-- Value of a digit string, most significant digit first. -/
def digitsVal (l : List Char) : Nat := l.foldl (fun a c => 10 * a + digitVal c) 0

/-- Decimal digits (most significant first) of `n` by repeated division;
`fuel` bounds the recursion and is instantiated with `n` itself. -/
def natDigitsAux (fuel n : Nat) : List Char :=
  match fuel with
  | 0 => []
  | f + 1 => if n = 0 then [] else natDigitsAux f (n / 10) ++ [digitChar (n % 10)]

/-- Decimal digit string of a natural number. -/
def natDigits (n : Nat) : List Char := if n = 0 then ['0'] else natDigitsAux n n

/-- Decimal rendering of a natural number, as JS prints nonnegative integers. -/
def natToString (n : Nat) : String := String.mk (natDigits n)

/-- Decimal rendering of a JS integer; negative values carry a sign. -/
def intToString (i : Int) : String :=
  if i < 0 then String.mk ('-' :: natDigits i.natAbs) else natToString i.toNat

/-- JS `parseInt(s, 10)`: skip leading spaces, read an optional sign and then
the longest run of decimal digits; `none` models `NaN`. -/
def parseIntChars (l : List Char) : Option Int :=
  match l.dropWhile (fun c => c = ' ') with
  | [] => none
  | c :: r =>
    if c = '-' then
      match r.takeWhile Char.isDigit with
      | [] => none
      | d => some (-(digitsVal d : Int))
    else if c = '+' then
      match r.takeWhile Char.isDigit with
      | [] => none
      | d => some ((digitsVal d : Int))
    else
      match (c :: r).takeWhile Char.isDigit with
      | [] => none
      | d => some ((digitsVal d : Int))

/-- JS `parseInt` on a string. -/
def jsParseInt (s : String) : Option Int := parseIntChars s.data

/-- JS `String.prototype.split('-')`. -/
def splitDash (l : List Char) : List (List Char) :=
  match l with
  | [] => [[]]
  | c :: r =>
    if c = '-' then [] :: splitDash r
    else
      match splitDash r with
      | [] => [[c]]
      | h :: t => (c :: h) :: t

/-- JS `String.prototype.replace(pat, '')` with a non-global literal pattern:
remove the first occurrence of `pat`, if any. -/
def stripFirst (pat l : List Char) : List Char :=
  match l with
  | [] => []
  | c :: r =>
    if pat.isPrefixOf (c :: r) then (c :: r).drop pat.length
    else c :: stripFirst pat r

/-- JS `String.prototype.replace(pat, '')` on strings. -/
def stripFirstStr (pat s : String) : String := String.mk (stripFirst pat.data s.data)

/-- JS `String.prototype.trim()`: drop leading and trailing whitespace. -/
def trimChars (l : List Char) : List Char :=
  ((l.dropWhile Char.isWhitespace).reverse.dropWhile Char.isWhitespace).reverse

/-- JS `trim` on strings. -/
def jsTrim (s : String) : String := String.mk (trimChars s.data)

/-- Node `path.extname` on a bare filename, followed by `toLowerCase`: the
suffix from the last dot, or empty when there is no dot or the only dot is the
leading character of a hidden-file name. -/
def extnameLower (s : String) : String :=
  let rev := s.data.reverse
  let tl := rev.takeWhile (fun c => c ≠ '.')
  if tl.length = rev.length then ""
  else if tl.length + 1 = rev.length then ""
  else String.mk (('.' :: tl.reverse).map Char.toLower)

theorem digitsVal_append (a : List Char) (c : Char) :
    digitsVal (a ++ [c]) = 10 * digitsVal a + digitVal c := by
  simp [digitsVal, List.foldl_append]

theorem digitVal_digitChar {d : Nat} (h : d < 10) : digitVal (digitChar d) = d := by
  interval_cases d <;> rfl

theorem isDigit_digitChar {d : Nat} (h : d < 10) : (digitChar d).isDigit = true := by
  interval_cases d <;> rfl

theorem isDigit_ne {c : Char} (h : c.isDigit = true) :
    c ≠ ' ' ∧ c ≠ '-' ∧ c ≠ '+' := by
  refine ⟨?_, ?_, ?_⟩ <;> rintro rfl <;> exact absurd h (by decide)

theorem natDigitsAux_digits {fuel n : Nat} (h : n ≤ fuel) :
    ∀ c ∈ natDigitsAux fuel n, c.isDigit = true := by
  induction fuel generalizing n with
  | zero => simp [natDigitsAux]
  | succ f ih =>
    intro c hc
    by_cases hn : n = 0
    · simp [natDigitsAux, hn] at hc
    · have hle : n / 10 ≤ f := by
        have hlt : n / 10 < n := Nat.div_lt_self (Nat.pos_of_ne_zero hn) (by omega)
        omega
      simp only [natDigitsAux, if_neg hn, List.mem_append, List.mem_singleton] at hc
      rcases hc with hc | hc
      · exact ih hle c hc
      · subst hc
        exact isDigit_digitChar (Nat.mod_lt _ (by omega))

theorem digitsVal_natDigitsAux {fuel n : Nat} (h : n ≤ fuel) :
    digitsVal (natDigitsAux fuel n) = n := by
  induction fuel generalizing n with
  | zero =>
    have : n = 0 := by omega
    subst this
    simp [natDigitsAux, digitsVal]
  | succ f ih =>
    by_cases hn : n = 0
    · subst hn
      simp [natDigitsAux, digitsVal]
    · have hle : n / 10 ≤ f := by
        have hlt : n / 10 < n := Nat.div_lt_self (Nat.pos_of_ne_zero hn) (by omega)
        omega
      rw [natDigitsAux, if_neg hn, digitsVal_append, ih hle,
        digitVal_digitChar (Nat.mod_lt _ (by omega))]
      omega

theorem natDigits_digits (n : Nat) : ∀ c ∈ natDigits n, c.isDigit = true := by
  by_cases h : n = 0
  · subst h
    intro c hc
    simp [natDigits] at hc
    subst hc
    decide
  · rw [natDigits, if_neg h]
    exact natDigitsAux_digits le_rfl

theorem natDigitsAux_ne_nil {f n : Nat} (hn : n ≠ 0) : natDigitsAux (f + 1) n ≠ [] := by
  rw [natDigitsAux, if_neg hn]
  simp

theorem natDigits_ne_nil (n : Nat) : natDigits n ≠ [] := by
  by_cases h : n = 0
  · subst h
    simp [natDigits]
  · rw [natDigits, if_neg h]
    cases n with
    | zero => exact absurd rfl h
    | succ m => exact natDigitsAux_ne_nil h

theorem digitsVal_natDigits (n : Nat) : digitsVal (natDigits n) = n := by
  by_cases h : n = 0
  · subst h
    simp [natDigits, digitsVal, digitVal]
  · rw [natDigits, if_neg h]
    exact digitsVal_natDigitsAux le_rfl

theorem takeWhile_all {p : Char → Bool} {l : List Char} (h : ∀ c ∈ l, p c = true) :
    l.takeWhile p = l := by
  induction l with
  | nil => rfl
  | cons c r ih =>
    rw [List.takeWhile_cons, h c (by simp), if_pos rfl]
    rw [ih (fun x hx => h x (by simp [hx]))]

theorem parseIntChars_digits {d : List Char} (hne : d ≠ [])
    (hd : ∀ c ∈ d, c.isDigit = true) :
    parseIntChars d = some ((digitsVal d : Nat) : Int) := by
  cases d with
  | nil => exact absurd rfl hne
  | cons c r =>
    have hc := hd c (by simp)
    obtain ⟨hs, hm, hp⟩ := isDigit_ne hc
    have hdrop : (c :: r).dropWhile (fun x => x = ' ') = c :: r := by
      rw [List.dropWhile_cons]
      simp [hs]
    have htake : (c :: r).takeWhile Char.isDigit = c :: r := takeWhile_all hd
    simp only [parseIntChars, hdrop, if_neg hm, if_neg hp, htake]

theorem parseIntChars_natDigits (n : Nat) :
    parseIntChars (natDigits n) = some (n : Int) := by
  rw [parseIntChars_digits (natDigits_ne_nil n) (natDigits_digits n), digitsVal_natDigits]

theorem jsParseInt_natToString (n : Nat) : jsParseInt (natToString n) = some (n : Int) :=
  parseIntChars_natDigits n

theorem splitDash_no_dash {a : List Char} (h : ∀ c ∈ a, c ≠ '-') :
    splitDash a = [a] := by
  induction a with
  | nil => rfl
  | cons c r ih =>
    rw [splitDash, if_neg (h c (by simp)), ih (fun x hx => h x (by simp [hx]))]

theorem splitDash_append {a b : List Char} (h : ∀ c ∈ a, c ≠ '-') :
    splitDash (a ++ '-' :: b) = a :: splitDash b := by
  induction a with
  | nil =>
    show splitDash ('-' :: b) = [] :: splitDash b
    rw [splitDash, if_pos rfl]
  | cons c r ih =>
    have hne : c ≠ '-' := h c (by simp)
    have ih2 := ih (fun x hx => h x (by simp [hx]))
    rw [List.cons_append, splitDash, if_neg hne, ih2]

theorem isPrefixOf_append_self (pat r : List Char) :
    pat.isPrefixOf (pat ++ r) = true := by
  induction pat with
  | nil => simp [List.isPrefixOf]
  | cons c t ih => simp [List.isPrefixOf, ih]

theorem stripFirst_append (pat r : List Char) : stripFirst pat (pat ++ r) = r := by
  cases h : pat ++ r with
  | nil =>
    have hp : pat = [] := by cases pat <;> simp_all
    have hr : r = [] := by
      subst hp
      simpa using h
    subst hp
    subst hr
    rfl
  | cons c rest =>
    rw [← h]
    have hpre : pat.isPrefixOf (pat ++ r) = true := isPrefixOf_append_self pat r
    conv_lhs => rw [h]
    rw [stripFirst, ← h, if_pos hpre, List.drop_left]

/-- Metadata record for an uploaded video or PDF (shared/schema.ts,
`media_files`); `duration`/`resolution` are video-only, `pageCount` PDF-only,
all three nullable. -/
structure MediaFile where
  id : Nat
  filename : String
  originalName : String
  mimeType : String
  size : Nat
  fileType : String
  uploadDate : Nat
  duration : Option Int
  resolution : Option String
  pageCount : Option Int
  deriving Repr, DecidableEq

/-- Metadata record for an audio recording (shared/schema.ts,
`audio_recordings`). -/
structure AudioRecording where
  id : Nat
  name : String
  filename : String
  size : Nat
  duration : Int
  dateRecorded : Nat
  format : String
  deriving Repr, DecidableEq

/-- Metadata record for a WebGL asset (shared/schema.ts, `webgl_assets`). -/
structure WebglAsset where
  id : Nat
  name : String
  description : String
  filename : String
  size : Nat
  format : String
  dateUploaded : Nat
  deriving Repr, DecidableEq

/-- Insert shape accepted by `MemStorage.createMediaFile`
(`insertMediaFileSchema`: the `media_files` columns without `id` and
`uploadDate`). -/
structure InsertMediaFile where
  filename : String
  originalName : String
  mimeType : String
  size : Nat
  fileType : String
  duration : Option Int
  resolution : Option String
  pageCount : Option Int
  deriving Repr, DecidableEq

/-- Insert shape accepted by `MemStorage.createWebGLAsset`
(`insertWebglAssetSchema`). -/
structure InsertWebglAsset where
  name : String
  description : String
  filename : String
  size : Nat
  format : String
  deriving Repr, DecidableEq

/-- Server state: the `MemStorage` maps (in insertion order, as a JS `Map`
iterates) with their id counters, and the `uploads/` directory as an
association list from path to byte content. -/
structure SState where
  mediaFiles : List MediaFile
  nextMediaId : Nat
  recordings : List AudioRecording
  nextRecId : Nat
  webglAssets : List WebglAsset
  nextWebglId : Nat
  uploads : List (String × List Nat)
  deriving Repr, DecidableEq

/-- Freshly constructed `MemStorage`: empty maps, counters at 1. -/
def initState : SState := ⟨[], 1, [], 1, [], 1, []⟩

/-- Content of a file in the uploads directory, `none` when absent
(`fs.existsSync` false). -/
def lookupFile (s : SState) (p : String) : Option (List Nat) :=
  (s.uploads.find? (fun e => e.1 == p)).map (fun e => e.2)

/-- Effect of `fs.unlinkSync` guarded by `fs.existsSync`. -/
def removeFile (u : List (String × List Nat)) (p : String) : List (String × List Nat) :=
  u.filter (fun e => e.1 != p)

/-- `MemStorage.getMediaFileById`: the parsed id, a JS number, looked up among
the natural record ids. -/
def getMediaFileById (s : SState) (id : Int) : Option MediaFile :=
  s.mediaFiles.find? (fun r => (r.id : Int) == id)

/-- `MemStorage.getMediaFiles(fileType)` with a file-type filter. -/
def getMediaFilesOf (s : SState) (ft : String) : List MediaFile :=
  s.mediaFiles.filter (fun r => r.fileType == ft)

/-- `MemStorage.getAudioRecordingById`. -/
def getAudioRecordingById (s : SState) (id : Int) : Option AudioRecording :=
  s.recordings.find? (fun r => (r.id : Int) == id)

/-- `MemStorage.getWebGLAssetById`. -/
def getWebGLAssetById (s : SState) (id : Int) : Option WebglAsset :=
  s.webglAssets.find? (fun r => (r.id : Int) == id)

/-- `MemStorage.createMediaFile`: assign the next id and the current date,
store, and return the stored record. -/
def createMediaFile (s : SState) (f : InsertMediaFile) (now : Nat) : MediaFile × SState :=
  let m : MediaFile := {
    id := s.nextMediaId, filename := f.filename, originalName := f.originalName,
    mimeType := f.mimeType, size := f.size, fileType := f.fileType, uploadDate := now,
    duration := f.duration, resolution := f.resolution, pageCount := f.pageCount }
  (m, { s with mediaFiles := s.mediaFiles ++ [m], nextMediaId := s.nextMediaId + 1 })

/-- `MemStorage.deleteMediaFile`: when the record exists, unlink its blob at
`uploads/{fileType}s/{filename}` (if present) and drop the record; the map
delete succeeds, so the result is `true`. -/
def deleteMediaFile (s : SState) (id : Int) : Bool × SState :=
  match getMediaFileById s id with
  | none => (false, s)
  | some f =>
    (true, { s with
      uploads := removeFile s.uploads ("uploads/" ++ f.fileType ++ "s/" ++ f.filename),
      mediaFiles := s.mediaFiles.filter (fun r => (r.id : Int) != id) })

/-- `MemStorage.updateAudioRecording` at the only update the server issues,
the `{name}` patch: merge the new name into the stored record in place. -/
def updateAudioRecordingName (s : SState) (id : Int) (newName : String) :
    Option AudioRecording × SState :=
  match getAudioRecordingById s id with
  | none => (none, s)
  | some r =>
    let r2 := { r with name := newName }
    (some r2,
      { s with recordings := s.recordings.map (fun q => if (q.id : Int) == id then r2 else q) })

/-- `MemStorage.deleteAudioRecording`. -/
def deleteAudioRecording (s : SState) (id : Int) : Bool × SState :=
  match getAudioRecordingById s id with
  | none => (false, s)
  | some r =>
    (true, { s with
      uploads := removeFile s.uploads ("uploads/audio/" ++ r.filename),
      recordings := s.recordings.filter (fun q => (q.id : Int) != id) })

/-- `MemStorage.deleteWebGLAsset`. -/
def deleteWebGLAsset (s : SState) (id : Int) : Bool × SState :=
  match getWebGLAssetById s id with
  | none => (false, s)
  | some a =>
    (true, { s with
      uploads := removeFile s.uploads ("uploads/webgl/" ++ a.filename),
      webglAssets := s.webglAssets.filter (fun q => (q.id : Int) != id) })

/-- `MemStorage.createWebGLAsset`. -/
def createWebGLAsset (s : SState) (a : InsertWebglAsset) (now : Nat) : WebglAsset × SState :=
  let w : WebglAsset := {
    id := s.nextWebglId, name := a.name, description := a.description,
    filename := a.filename, size := a.size, format := a.format, dateUploaded := now }
  (w, { s with webglAssets := s.webglAssets ++ [w], nextWebglId := s.nextWebglId + 1 })

/-- Insertion into a list ordered by `dateRecorded` descending, modelling the
comparator `(a, b) => ... b ... - ... a ...` of `getAllRecordings`. -/
def insertByDateDesc (r : AudioRecording) : List AudioRecording → List AudioRecording
  | [] => [r]
  | q :: t => if r.dateRecorded ≤ q.dateRecorded then q :: insertByDateDesc r t else r :: q :: t

/-- Newest-first sort used by `getAllRecordings`. -/
def sortByDateDesc : List AudioRecording → List AudioRecording
  | [] => []
  | r :: t => insertByDateDesc r (sortByDateDesc t)

/-- HTTP response body as observed by the client. -/
inductive Body where
  | empty
  | msg (m : String)
  | msgErrors (m : String)
  | jsonMedia (f : MediaFile)
  | jsonMediaList (l : List MediaFile)
  | jsonAudio (r : AudioRecording)
  | jsonAudioList (l : List AudioRecording)
  | jsonWebgl (a : WebglAsset)
  | jsonWebglList (l : List WebglAsset)
  | bytes (b : List Nat)
  deriving Repr, DecidableEq

/-- HTTP response: status, the explicitly set headers, and the body. -/
structure HttpResponse where
  status : Nat
  headers : List (String × String)
  body : Body
  deriving Repr, DecidableEq

/-- Value of an explicitly set response header. -/
def headerVal (r : HttpResponse) (k : String) : Option String :=
  (r.headers.find? (fun p => p.1 == k)).map (fun p => p.2)

/-- Response via `res.status(code).json({ message })`. -/
def jsonMsg (code : Nat) (m : String) : HttpResponse := ⟨code, [], Body.msg m⟩

/-- Modelled from the spec: the blob store's `openBlobStream` (§4.3), realized
in the source by `fs.createReadStream(path, { start, end })`, which is library
code not under src/; per §4.1 the streamed bytes are the blob windowed to
`[start, end]` inclusive, here a pure byte slice, empty when the window is
degenerate. -/
def readWindow (bytes : List Nat) (st en : Int) : List Nat :=
  (bytes.drop st.toNat).take ((en - st + 1).toNat)

/-- Range branch shared verbatim by `streamVideo` (videoController.ts:62-78)
and `streamAudio` (audioController:66-82), parameterized by content type and
catch-all message, the only points where the two copies differ. A piece that
parses to `NaN` makes stream creation throw, landing in the catch-all 500. -/
def rangeRespond (range : String) (fileBytes : List Nat) (ctype errMsg : String) : HttpResponse :=
  let fileSize := fileBytes.length
  let parts := splitDash (stripFirst "bytes=".data range.data)
  let startP := parseIntChars (parts.headD [])
  let endP : Option Int :=
    match parts.get? 1 with
    | some p => if p.isEmpty then some ((fileSize : Int) - 1) else parseIntChars p
    | none => some ((fileSize : Int) - 1)
  match startP, endP with
  | some st, some en =>
    let chunksize : Int := (en - st) + 1
    { status := 206
      headers := [
        ("Content-Range",
          "bytes " ++ intToString st ++ "-" ++ intToString en ++ "/" ++ natToString fileSize),
        ("Accept-Ranges", "bytes"),
        ("Content-Length", intToString chunksize),
        ("Content-Type", ctype)]
      body := Body.bytes (readWindow fileBytes st en) }
  | _, _ => jsonMsg 500 errMsg

/-- GET /api/videos/:id/stream (videoController.streamVideo). -/
def streamVideo (idStr : String) (range : Option String) (s : SState) : HttpResponse :=
  match jsParseInt idStr with
  | none => jsonMsg 400 "Invalid video ID"
  | some id =>
    match getMediaFileById s id with
    | none => jsonMsg 404 "Video not found"
    | some video =>
      if video.fileType ≠ "video" then jsonMsg 404 "Video not found"
      else
        match lookupFile s ("uploads/videos/" ++ video.filename) with
        | none => jsonMsg 404 "Video file not found"
        | some fileBytes =>
          match range with
          | some r => rangeRespond r fileBytes video.mimeType "Failed to stream video"
          | none =>
            { status := 200
              headers := [
                ("Content-Length", natToString fileBytes.length),
                ("Content-Type", video.mimeType)]
              body := Body.bytes fileBytes }

/-- GET /api/audio-recordings/:id/stream (audioController.streamAudio); the
content type is the constant `'audio/webm'`, not the stored `format`. -/
def streamAudio (idStr : String) (range : Option String) (s : SState) : HttpResponse :=
  match jsParseInt idStr with
  | none => jsonMsg 400 "Invalid recording ID"
  | some id =>
    match getAudioRecordingById s id with
    | none => jsonMsg 404 "Recording not found"
    | some recording =>
      match lookupFile s ("uploads/audio/" ++ recording.filename) with
      | none => jsonMsg 404 "Audio file not found"
      | some fileBytes =>
        match range with
        | some r => rangeRespond r fileBytes "audio/webm" "Failed to stream audio"
        | none =>
          { status := 200
            headers := [
              ("Content-Length", natToString fileBytes.length),
              ("Content-Type", "audio/webm")]
            body := Body.bytes fileBytes }

/-- GET /api/videos/:id (videoController.getVideoById). -/
def getVideoById (idStr : String) (s : SState) : HttpResponse :=
  match jsParseInt idStr with
  | none => jsonMsg 400 "Invalid video ID"
  | some id =>
    match getMediaFileById s id with
    | none => jsonMsg 404 "Video not found"
    | some v =>
      if v.fileType ≠ "video" then jsonMsg 404 "Video not found"
      else ⟨200, [], Body.jsonMedia v⟩

/-- GET /api/videos (videoController.getAllVideos). -/
def getAllVideos (s : SState) : HttpResponse :=
  ⟨200, [], Body.jsonMediaList (getMediaFilesOf s "video")⟩

/-- DELETE /api/videos/:id (videoController.deleteVideo). -/
def deleteVideo (idStr : String) (s : SState) : HttpResponse × SState :=
  match jsParseInt idStr with
  | none => (jsonMsg 400 "Invalid video ID", s)
  | some id =>
    match getMediaFileById s id with
    | none => (jsonMsg 404 "Video not found", s)
    | some v =>
      if v.fileType ≠ "video" then (jsonMsg 404 "Video not found", s)
      else
        let r := deleteMediaFile s id
        if r.1 then (⟨204, [], Body.empty⟩, r.2)
        else (jsonMsg 500 "Failed to delete video", r.2)

/-- Uploaded file as multer hands it to a handler: generated storage filename,
client-sent original name and mimetype, and the raw bytes (`size` is the byte
count). -/
structure UploadedFile where
  filename : String
  originalName : String
  mimetype : String
  bytes : List Nat
  deriving Repr, DecidableEq

/-- POST /api/videos: the multer disk write followed by
videoController.uploadVideo. `parseVideoMetadata` and `getMimeType`
(server/utils/fileStorage, not under src/) are abstracted as the `probe`
result — `none` models a probe failure, caught and replaced by the defaults;
within a successful probe an absent duration or resolution falls back to `0` /
`''` through the JS `or` — and the `mimeFallback` string. The zod
`insertMediaFileSchema` check cannot fail here, every field it requires being
present and well-typed by construction, so the unlink-and-400 branch is
unreachable and the record is stored. -/
def uploadVideoRoute (file : Option UploadedFile) (probe : Option (Option Int × Option String))
    (mimeFallback : String) (now : Nat) (s : SState) : HttpResponse × SState :=
  match file with
  | none => (jsonMsg 400 "No video file uploaded", s)
  | some f =>
    let s1 := { s with uploads := s.uploads ++ [("uploads/videos/" ++ f.filename, f.bytes)] }
    let dur : Int :=
      match probe with
      | some (some d, _) => d
      | _ => 0
    let res : String :=
      match probe with
      | some (_, some r) => r
      | _ => ""
    let data : InsertMediaFile := {
      filename := f.filename, originalName := f.originalName,
      mimeType := if f.mimetype = "" then mimeFallback else f.mimetype,
      size := f.bytes.length, fileType := "video",
      duration := some dur, resolution := some res, pageCount := none }
    let cr := createMediaFile s1 data now
    (⟨201, [], Body.jsonMedia cr.1⟩, cr.2)

/-- GET /api/pdfs/:id (pdfController.getPdfById). -/
def getPdfById (idStr : String) (s : SState) : HttpResponse :=
  match jsParseInt idStr with
  | none => jsonMsg 400 "Invalid PDF ID"
  | some id =>
    match getMediaFileById s id with
    | none => jsonMsg 404 "PDF not found"
    | some p =>
      if p.fileType ≠ "pdf" then jsonMsg 404 "PDF not found"
      else ⟨200, [], Body.jsonMedia p⟩

/-- GET /api/pdfs (pdfController.getAllPdfs). -/
def getAllPdfs (s : SState) : HttpResponse :=
  ⟨200, [], Body.jsonMediaList (getMediaFilesOf s "pdf")⟩

/-- GET /api/pdfs/:id/view (pdfController.viewPdf). -/
def viewPdf (idStr : String) (s : SState) : HttpResponse :=
  match jsParseInt idStr with
  | none => jsonMsg 400 "Invalid PDF ID"
  | some id =>
    match getMediaFileById s id with
    | none => jsonMsg 404 "PDF not found"
    | some pdf =>
      if pdf.fileType ≠ "pdf" then jsonMsg 404 "PDF not found"
      else
        match lookupFile s ("uploads/pdfs/" ++ pdf.filename) with
        | none => jsonMsg 404 "PDF file not found"
        | some b =>
          { status := 200
            headers := [
              ("Content-Type", "application/pdf"),
              ("Content-Disposition", "inline; filename=\"" ++ pdf.originalName ++ "\"")]
            body := Body.bytes b }

/-- GET /api/pdfs/:id/download (pdfController.downloadPdf). -/
def downloadPdf (idStr : String) (s : SState) : HttpResponse :=
  match jsParseInt idStr with
  | none => jsonMsg 400 "Invalid PDF ID"
  | some id =>
    match getMediaFileById s id with
    | none => jsonMsg 404 "PDF not found"
    | some pdf =>
      if pdf.fileType ≠ "pdf" then jsonMsg 404 "PDF not found"
      else
        match lookupFile s ("uploads/pdfs/" ++ pdf.filename) with
        | none => jsonMsg 404 "PDF file not found"
        | some b =>
          { status := 200
            headers := [
              ("Content-Type", "application/pdf"),
              ("Content-Disposition", "attachment; filename=\"" ++ pdf.originalName ++ "\"")]
            body := Body.bytes b }

/-- GET /api/pdfs/:id/pages/:pageNum/download (pdfController.downloadPdfPage).
The pdf-lib operations are external library calls abstracted as parameters:
`pdfPages` is the page count of a parsed document, `none` when loading throws
(landing in the catch-all 500), and `extractPage` the single-page document
assembled for a valid page index. -/
def downloadPdfPage (pdfPages : List Nat → Option Nat) (extractPage : List Nat → Nat → List Nat)
    (idStr pageStr : String) (s : SState) : HttpResponse :=
  match jsParseInt idStr, jsParseInt pageStr with
  | some id, some pageNum =>
    (match getMediaFileById s id with
    | none => jsonMsg 404 "PDF not found"
    | some pdf =>
      if pdf.fileType ≠ "pdf" then jsonMsg 404 "PDF not found"
      else
        match lookupFile s ("uploads/pdfs/" ++ pdf.filename) with
        | none => jsonMsg 404 "PDF file not found"
        | some b =>
          match pdfPages b with
          | none => jsonMsg 500 "Failed to download PDF page"
          | some cnt =>
            if pageNum < 1 ∨ (cnt : Int) < pageNum then jsonMsg 400 "Invalid page number"
            else
              { status := 200
                headers := [
                  ("Content-Type", "application/pdf"),
                  ("Content-Disposition",
                    "attachment; filename=\"" ++ stripFirstStr ".pdf" pdf.originalName ++
                      "_page" ++ intToString pageNum ++ ".pdf\"")]
                body := Body.bytes (extractPage b pageNum.toNat) })
  | _, _ => jsonMsg 400 "Invalid PDF ID or page number"

/-- POST /api/pdfs: the multer disk write followed by pdfController.uploadPdf.
`pages` stands for the `countPdfPages` probe (server/utils/fileStorage, not
under src/); a zero count falls back to 1 through the JS `or`. The zod check
cannot fail here (every schema-required field is present and well-typed), so
the unlink-and-400 branch is unreachable and the record is stored. -/
def uploadPdfRoute (file : Option UploadedFile) (pages : Nat) (now : Nat) (s : SState) :
    HttpResponse × SState :=
  match file with
  | none => (jsonMsg 400 "No PDF file uploaded", s)
  | some f =>
    let s1 := { s with uploads := s.uploads ++ [("uploads/pdfs/" ++ f.filename, f.bytes)] }
    let data : InsertMediaFile := {
      filename := f.filename, originalName := f.originalName,
      mimeType := if f.mimetype = "" then "application/pdf" else f.mimetype,
      size := f.bytes.length, fileType := "pdf",
      duration := none, resolution := none,
      pageCount := some (if pages = 0 then 1 else pages) }
    let cr := createMediaFile s1 data now
    (⟨201, [], Body.jsonMedia cr.1⟩, cr.2)

/-- DELETE /api/pdfs/:id (pdfController.deletePdf). -/
def deletePdf (idStr : String) (s : SState) : HttpResponse × SState :=
  match jsParseInt idStr with
  | none => (jsonMsg 400 "Invalid PDF ID", s)
  | some id =>
    match getMediaFileById s id with
    | none => (jsonMsg 404 "PDF not found", s)
    | some p =>
      if p.fileType ≠ "pdf" then (jsonMsg 404 "PDF not found", s)
      else
        let r := deleteMediaFile s id
        if r.1 then (⟨204, [], Body.empty⟩, r.2)
        else (jsonMsg 500 "Failed to delete PDF", r.2)

/-- GET /api/audio-recordings/:id (audioController.getRecordingById). -/
def getRecordingById (idStr : String) (s : SState) : HttpResponse :=
  match jsParseInt idStr with
  | none => jsonMsg 400 "Invalid recording ID"
  | some id =>
    match getAudioRecordingById s id with
    | none => jsonMsg 404 "Recording not found"
    | some r => ⟨200, [], Body.jsonAudio r⟩

/-- GET /api/audio-recordings (audioController.getAllRecordings): the
recordings sorted newest first. -/
def getAllRecordings (s : SState) : HttpResponse :=
  ⟨200, [], Body.jsonAudioList (sortByDateDesc s.recordings)⟩

/-- GET /api/audio-recordings/:id/download (audioController.downloadAudio). -/
def downloadAudio (idStr : String) (s : SState) : HttpResponse :=
  match jsParseInt idStr with
  | none => jsonMsg 400 "Invalid recording ID"
  | some id =>
    match getAudioRecordingById s id with
    | none => jsonMsg 404 "Recording not found"
    | some recording =>
      match lookupFile s ("uploads/audio/" ++ recording.filename) with
      | none => jsonMsg 404 "Audio file not found"
      | some b =>
        { status := 200
          headers := [
            ("Content-Type", "audio/webm"),
            ("Content-Disposition",
              "attachment; filename=\"" ++ recording.name ++ ".webm\"")]
          body := Body.bytes b }

/-- Value of a form/body field: absent, a string, or a truthy non-string value
(for example the array an HTML form produces from a repeated field, which
passes the JS truthiness test but fails a `typeof x === 'string'` check and
the zod string schema). -/
inductive BodyVal where
  | str (s : String)
  | nonString
  deriving Repr, DecidableEq

/-- JS truthiness of an optional body field: `undefined` and the empty string
are falsy. -/
def bvTruthy : Option BodyVal → Bool
  | none => false
  | some (BodyVal.str s) => s ≠ ""
  | some BodyVal.nonString => true

/-- PATCH /api/audio-recordings/:id (audioController.renameRecording). -/
def renameRecording (idStr : String) (nameVal : Option BodyVal) (s : SState) :
    HttpResponse × SState :=
  match jsParseInt idStr with
  | none => (jsonMsg 400 "Invalid recording ID", s)
  | some id =>
    if !bvTruthy nameVal then (jsonMsg 400 "Invalid name provided", s)
    else
      match nameVal with
      | some (BodyVal.str n) =>
        if jsTrim n = "" then (jsonMsg 400 "Invalid name provided", s)
        else
          match getAudioRecordingById s id with
          | none => (jsonMsg 404 "Recording not found", s)
          | some _ =>
            let u := updateAudioRecordingName s id (jsTrim n)
            match u.1 with
            | none => (jsonMsg 500 "Failed to rename recording", u.2)
            | some r2 => (⟨200, [], Body.jsonAudio r2⟩, u.2)
      | _ => (jsonMsg 400 "Invalid name provided", s)

/-- DELETE /api/audio-recordings/:id (audioController.deleteRecording). -/
def deleteRecording (idStr : String) (s : SState) : HttpResponse × SState :=
  match jsParseInt idStr with
  | none => (jsonMsg 400 "Invalid recording ID", s)
  | some id =>
    match getAudioRecordingById s id with
    | none => (jsonMsg 404 "Recording not found", s)
    | some _ =>
      let r := deleteAudioRecording s id
      if r.1 then (⟨204, [], Body.empty⟩, r.2)
      else (jsonMsg 500 "Failed to delete recording", r.2)

/-- POST /api/audio-recordings: the multer disk write followed by
audioController.uploadRecording. The assembled `recordingData` carries no
`format` field while `insertAudioRecordingSchema` requires one
(`audio_recordings.format` is notNull with no default), so the zod check fails
on every request: the handler unlinks the just-written file and answers 400,
and no record is ever created. -/
def uploadRecordingRoute (file : Option UploadedFile) (s : SState) : HttpResponse × SState :=
  match file with
  | none => (jsonMsg 400 "No audio file uploaded", s)
  | some f =>
    let p := "uploads/audio/" ++ f.filename
    (⟨400, [], Body.msgErrors "Invalid recording data"⟩,
      { s with uploads := removeFile (s.uploads ++ [(p, f.bytes)]) p })

/-- GET /api/webgl/:id (webglController.getAssetById). -/
def getAssetById (idStr : String) (s : SState) : HttpResponse :=
  match jsParseInt idStr with
  | none => jsonMsg 400 "Invalid asset ID"
  | some id =>
    match getWebGLAssetById s id with
    | none => jsonMsg 404 "WebGL asset not found"
    | some a => ⟨200, [], Body.jsonWebgl a⟩

/-- GET /api/webgl (webglController.getAllAssets). -/
def getAllAssets (s : SState) : HttpResponse :=
  ⟨200, [], Body.jsonWebglList s.webglAssets⟩

/-- GET /api/webgl/:id/render (webglController.serveWebGLAsset). -/
def serveWebGLAsset (idStr : String) (s : SState) : HttpResponse :=
  match jsParseInt idStr with
  | none => jsonMsg 400 "Invalid asset ID"
  | some id =>
    match getWebGLAssetById s id with
    | none => jsonMsg 404 "WebGL asset not found"
    | some asset =>
      match lookupFile s ("uploads/webgl/" ++ asset.filename) with
      | none => jsonMsg 404 "WebGL asset file not found"
      | some b =>
        let ext := extnameLower asset.filename
        let contentType :=
          if ext = ".gltf" then "model/gltf+json"
          else if ext = ".glb" then "model/gltf-binary"
          else "application/octet-stream"
        { status := 200
          headers := [
            ("Content-Type", contentType),
            ("Content-Disposition", "inline; filename=\"" ++ asset.name ++ ext ++ "\"")]
          body := Body.bytes b }

/-- POST /api/webgl: the multer extension check (`fileFilter` and
`destination` in routes.ts), the disk write, and webglController.uploadAsset.
A disallowed extension makes multer abort with a plain `Error` before the file
is written; the error middleware in server/index.ts then answers with
`err.status || err.statusCode || 500`, which is 500 for a plain `Error`. With
an allowed extension the file is written and the handler runs; its zod check
fails exactly when the assembled name is not a string (a truthy non-string
body field), in which case the file is unlinked and the answer is 400. -/
def webglUploadRoute (file : Option UploadedFile) (bodyName : Option BodyVal)
    (bodyDesc : Option String) (now : Nat) (s : SState) : HttpResponse × SState :=
  match file with
  | none => (jsonMsg 400 "No WebGL file uploaded", s)
  | some f =>
    let ext := extnameLower f.originalName
    if ¬ ([".gltf", ".glb", ".png", ".fbx"].contains ext) then
      (jsonMsg 500 "Invalid file type for WebGL upload", s)
    else
      let p := "uploads/webgl/" ++ f.filename
      let s1 := { s with uploads := s.uploads ++ [(p, f.bytes)] }
      let format :=
        if ext = ".gltf" then "GLTF"
        else if ext = ".glb" then "GLB"
        else if ext = ".png" then "PNG"
        else "Unknown"
      let nameV : BodyVal :=
        if bvTruthy bodyName then bodyName.getD BodyVal.nonString
        else BodyVal.str (stripFirstStr ext f.originalName)
      let desc :=
        match bodyDesc with
        | some d => d
        | none => ""
      match nameV with
      | BodyVal.nonString =>
        (⟨400, [], Body.msgErrors "Invalid WebGL asset data"⟩,
          { s1 with uploads := removeFile s1.uploads p })
      | BodyVal.str nm =>
        let cr := createWebGLAsset s1 ⟨nm, desc, f.filename, f.bytes.length, format⟩ now
        (⟨201, [], Body.jsonWebgl cr.1⟩, cr.2)

/-- DELETE /api/webgl/:id (webglController.deleteAsset). -/
def deleteAsset (idStr : String) (s : SState) : HttpResponse × SState :=
  match jsParseInt idStr with
  | none => (jsonMsg 400 "Invalid asset ID", s)
  | some id =>
    match getWebGLAssetById s id with
    | none => (jsonMsg 404 "WebGL asset not found", s)
    | some _ =>
      let r := deleteWebGLAsset s id
      if r.1 then (⟨204, [], Body.empty⟩, r.2)
      else (jsonMsg 500 "Failed to delete WebGL asset", r.2)

theorem string_data_append (a b : String) : (a ++ b).data = a.data ++ b.data := by
  cases a
  cases b
  rfl

theorem natDigits_no_dash (n : Nat) : ∀ c ∈ natDigits n, c ≠ '-' :=
  fun c hc => (isDigit_ne (natDigits_digits n c hc)).2.1

theorem natDigits_isEmpty (n : Nat) : (natDigits n).isEmpty = false := by
  cases h : natDigits n with
  | nil => exact absurd h (natDigits_ne_nil n)
  | cons c t => rfl

theorem range_data_closed (st en : Nat) :
    ("bytes=" ++ natToString st ++ "-" ++ natToString en).data =
      "bytes=".data ++ (natDigits st ++ '-' :: natDigits en) := by
  simp [string_data_append, natToString]

theorem range_data_open (st : Nat) :
    ("bytes=" ++ natToString st ++ "-").data =
      "bytes=".data ++ (natDigits st ++ '-' :: ([] : List Char)) := by
  simp [string_data_append, natToString]

theorem intToString_natCast (n : Nat) : intToString (n : Int) = natToString n := by
  have h1 : ¬ ((n : Int) < 0) := by omega
  have h2 : ((n : Int)).toNat = n := by omega
  rw [intToString, if_neg h1, h2]

/-- Both range pieces explicit: the parse pipeline of the range branch yields
exactly the requested endpoints and the computed headers. -/
theorem rangeRespond_closed (st en : Nat) (fileBytes : List Nat) (ct em : String) :
    rangeRespond ("bytes=" ++ natToString st ++ "-" ++ natToString en) fileBytes ct em =
      { status := 206
        headers := [
          ("Content-Range",
            "bytes " ++ intToString (st : Int) ++ "-" ++ intToString (en : Int) ++ "/" ++
              natToString fileBytes.length),
          ("Accept-Ranges", "bytes"),
          ("Content-Length", intToString ((en : Int) - (st : Int) + 1)),
          ("Content-Type", ct)]
        body := Body.bytes (readWindow fileBytes (st : Int) (en : Int)) } := by
  simp only [rangeRespond, range_data_closed, stripFirst_append,
    splitDash_append (natDigits_no_dash st), splitDash_no_dash (natDigits_no_dash en),
    List.headD_cons, List.get?_cons_succ, List.get?_cons_zero, natDigits_isEmpty,
    parseIntChars_natDigits, Bool.false_eq_true, if_false]

/-- Open-ended range: the second piece is the empty string, so the end
defaults to `fileSize - 1`. -/
theorem rangeRespond_open (st : Nat) (fileBytes : List Nat) (ct em : String) :
    rangeRespond ("bytes=" ++ natToString st ++ "-") fileBytes ct em =
      { status := 206
        headers := [
          ("Content-Range",
            "bytes " ++ intToString (st : Int) ++ "-" ++
              intToString ((fileBytes.length : Int) - 1) ++ "/" ++
              natToString fileBytes.length),
          ("Accept-Ranges", "bytes"),
          ("Content-Length", intToString (((fileBytes.length : Int) - 1) - (st : Int) + 1)),
          ("Content-Type", ct)]
        body := Body.bytes (readWindow fileBytes (st : Int) ((fileBytes.length : Int) - 1)) } := by
  simp only [rangeRespond, range_data_open, stripFirst_append,
    splitDash_append (natDigits_no_dash st), List.headD_cons, List.get?_cons_succ,
    List.get?_cons_zero, parseIntChars_natDigits]
  rfl

theorem readWindow_eq_map {bytes : List Nat} {st en : Nat} (h1 : st ≤ en)
    (h2 : en < bytes.length) :
    readWindow bytes (st : Int) (en : Int) =
      (List.range (en - st + 1)).map (fun k => bytes.getD (st + k) 0) := by
  have hto : (((en : Int)) - (st : Int) + 1).toNat = en - st + 1 := by omega
  have hst : ((st : Int)).toNat = st := by omega
  rw [readWindow, hst, hto]
  apply List.ext_getElem
  · simp only [List.length_take, List.length_drop, List.length_map, List.length_range]
    omega
  · intro i hi1 hi2
    simp only [List.getElem_take, List.getElem_drop, List.getElem_map, List.getElem_range]
    rw [List.getD_eq_getElem]

theorem streamVideo_range (s : SState) (n : Nat) (v : MediaFile) (bytes : List Nat)
    (rng : String)
    (hv : getMediaFileById s (n : Int) = some v) (hft : v.fileType = "video")
    (hf : lookupFile s ("uploads/videos/" ++ v.filename) = some bytes) :
    streamVideo (natToString n) (some rng) s =
      rangeRespond rng bytes v.mimeType "Failed to stream video" := by
  simp only [streamVideo, jsParseInt_natToString, hv, hf, hft, ne_eq, not_true_eq_false,
    if_false]

theorem streamVideo_noRange (s : SState) (n : Nat) (v : MediaFile) (bytes : List Nat)
    (hv : getMediaFileById s (n : Int) = some v) (hft : v.fileType = "video")
    (hf : lookupFile s ("uploads/videos/" ++ v.filename) = some bytes) :
    streamVideo (natToString n) none s =
      { status := 200
        headers := [
          ("Content-Length", natToString bytes.length),
          ("Content-Type", v.mimeType)]
        body := Body.bytes bytes } := by
  simp only [streamVideo, jsParseInt_natToString, hv, hf, hft, ne_eq, not_true_eq_false,
    if_false]

theorem streamAudio_range (s : SState) (n : Nat) (a : AudioRecording) (bytes : List Nat)
    (rng : String)
    (ha : getAudioRecordingById s (n : Int) = some a)
    (hf : lookupFile s ("uploads/audio/" ++ a.filename) = some bytes) :
    streamAudio (natToString n) (some rng) s =
      rangeRespond rng bytes "audio/webm" "Failed to stream audio" := by
  simp only [streamAudio, jsParseInt_natToString, ha, hf]

theorem streamAudio_noRange (s : SState) (n : Nat) (a : AudioRecording) (bytes : List Nat)
    (ha : getAudioRecordingById s (n : Int) = some a)
    (hf : lookupFile s ("uploads/audio/" ++ a.filename) = some bytes) :
    streamAudio (natToString n) none s =
      { status := 200
        headers := [
          ("Content-Length", natToString bytes.length),
          ("Content-Type", "audio/webm")]
        body := Body.bytes bytes } := by
  simp only [streamAudio, jsParseInt_natToString, ha, hf]

theorem headerVal_cons_self {c : Nat} {hs : List (String × String)} {b : Body}
    (k v : String) :
    headerVal ⟨c, (k, v) :: hs, b⟩ k = some v := by
  unfold headerVal
  rw [List.find?_cons_of_pos _ (by simp)]
  rfl

theorem headerVal_cons_ne {c : Nat} {hs : List (String × String)} {b : Body}
    {k' v' k : String} (h : (k' == k) = false) :
    headerVal ⟨c, (k', v') :: hs, b⟩ k = headerVal ⟨c, hs, b⟩ k := by
  unfold headerVal
  rw [List.find?_cons_of_neg _ (by simp [h])]

theorem intToString_chunk {st en : Nat} (h : st ≤ en) :
    intToString ((en : Int) - (st : Int) + 1) = natToString (en - st + 1) := by
  have hc : ((en : Int) - (st : Int) + 1) = ((en - st + 1 : Nat) : Int) := by omega
  rw [hc, intToString_natCast]

/-- C1: for a stored blob of size `S > 0` and a requested range
`0 ≤ start ≤ end < S`, both stream endpoints answer 206 with
`Content-Range: bytes start-end/S`, `Accept-Ranges: bytes`,
`Content-Length: end - start + 1`, and the blob's `[start, end]` slice as
body. -/
theorem range_request_partial_content :
    (∀ (s : SState) (n : Nat) (v : MediaFile) (bytes : List Nat) (st en : Nat),
      getMediaFileById s (n : Int) = some v → v.fileType = "video" →
      lookupFile s ("uploads/videos/" ++ v.filename) = some bytes →
      st ≤ en → en < bytes.length →
      (streamVideo (natToString n)
          (some ("bytes=" ++ natToString st ++ "-" ++ natToString en)) s).status = 206 ∧
      headerVal (streamVideo (natToString n)
          (some ("bytes=" ++ natToString st ++ "-" ++ natToString en)) s) "Content-Range" =
        some ("bytes " ++ natToString st ++ "-" ++ natToString en ++ "/" ++
          natToString bytes.length) ∧
      headerVal (streamVideo (natToString n)
          (some ("bytes=" ++ natToString st ++ "-" ++ natToString en)) s) "Accept-Ranges" =
        some "bytes" ∧
      headerVal (streamVideo (natToString n)
          (some ("bytes=" ++ natToString st ++ "-" ++ natToString en)) s) "Content-Length" =
        some (natToString (en - st + 1)) ∧
      (streamVideo (natToString n)
          (some ("bytes=" ++ natToString st ++ "-" ++ natToString en)) s).body =
        Body.bytes ((List.range (en - st + 1)).map (fun k => bytes.getD (st + k) 0))) ∧
    (∀ (s : SState) (n : Nat) (a : AudioRecording) (bytes : List Nat) (st en : Nat),
      getAudioRecordingById s (n : Int) = some a →
      lookupFile s ("uploads/audio/" ++ a.filename) = some bytes →
      st ≤ en → en < bytes.length →
      (streamAudio (natToString n)
          (some ("bytes=" ++ natToString st ++ "-" ++ natToString en)) s).status = 206 ∧
      headerVal (streamAudio (natToString n)
          (some ("bytes=" ++ natToString st ++ "-" ++ natToString en)) s) "Content-Range" =
        some ("bytes " ++ natToString st ++ "-" ++ natToString en ++ "/" ++
          natToString bytes.length) ∧
      headerVal (streamAudio (natToString n)
          (some ("bytes=" ++ natToString st ++ "-" ++ natToString en)) s) "Accept-Ranges" =
        some "bytes" ∧
      headerVal (streamAudio (natToString n)
          (some ("bytes=" ++ natToString st ++ "-" ++ natToString en)) s) "Content-Length" =
        some (natToString (en - st + 1)) ∧
      (streamAudio (natToString n)
          (some ("bytes=" ++ natToString st ++ "-" ++ natToString en)) s).body =
        Body.bytes ((List.range (en - st + 1)).map (fun k => bytes.getD (st + k) 0))) := by
  constructor
  · intro s n v bytes st en hv hft hf h1 h2
    have hresp : streamVideo (natToString n)
        (some ("bytes=" ++ natToString st ++ "-" ++ natToString en)) s =
        { status := 206
          headers := [
            ("Content-Range", "bytes " ++ natToString st ++ "-" ++ natToString en ++ "/" ++
              natToString bytes.length),
            ("Accept-Ranges", "bytes"),
            ("Content-Length", natToString (en - st + 1)),
            ("Content-Type", v.mimeType)]
          body := Body.bytes ((List.range (en - st + 1)).map (fun k => bytes.getD (st + k) 0)) } := by
      rw [streamVideo_range s n v bytes _ hv hft hf, rangeRespond_closed,
        intToString_natCast st, intToString_natCast en, intToString_chunk h1,
        readWindow_eq_map h1 h2]
    rw [hresp]
    refine ⟨rfl, headerVal_cons_self _ _, ?_, ?_, rfl⟩
    · rw [headerVal_cons_ne (by decide)]
      exact headerVal_cons_self _ _
    · rw [headerVal_cons_ne (by decide), headerVal_cons_ne (by decide)]
      exact headerVal_cons_self _ _
  · intro s n a bytes st en ha hf h1 h2
    have hresp : streamAudio (natToString n)
        (some ("bytes=" ++ natToString st ++ "-" ++ natToString en)) s =
        { status := 206
          headers := [
            ("Content-Range", "bytes " ++ natToString st ++ "-" ++ natToString en ++ "/" ++
              natToString bytes.length),
            ("Accept-Ranges", "bytes"),
            ("Content-Length", natToString (en - st + 1)),
            ("Content-Type", "audio/webm")]
          body := Body.bytes ((List.range (en - st + 1)).map (fun k => bytes.getD (st + k) 0)) } := by
      rw [streamAudio_range s n a bytes _ ha hf, rangeRespond_closed,
        intToString_natCast st, intToString_natCast en, intToString_chunk h1,
        readWindow_eq_map h1 h2]
    rw [hresp]
    refine ⟨rfl, headerVal_cons_self _ _, ?_, ?_, rfl⟩
    · rw [headerVal_cons_ne (by decide)]
      exact headerVal_cons_self _ _
    · rw [headerVal_cons_ne (by decide), headerVal_cons_ne (by decide)]
      exact headerVal_cons_self _ _

theorem natToString_data (n : Nat) : (natToString n).data = natDigits n := rfl

theorem natDigits_head_digit (n : Nat) :
    ∃ c t, natDigits n = c :: t ∧ c.isDigit = true := by
  cases h : natDigits n with
  | nil => exact absurd h (natDigits_ne_nil n)
  | cons c t => exact ⟨c, t, rfl, natDigits_digits n c (h ▸ List.mem_cons_self c t)⟩

/-- The computed `Content-Range` always starts `bytes {digits}`, never
`bytes */`. -/
theorem contentRange_ne_star (st S : Nat) (e : Int) :
    "bytes " ++ natToString st ++ "-" ++ intToString e ++ "/" ++ natToString S ≠
      "bytes */" ++ natToString S := by
  intro h
  obtain ⟨c, t, hct, hdig⟩ := natDigits_head_digit st
  have hd := congrArg String.data h
  simp only [string_data_append, List.append_assoc, natToString_data] at hd
  have hd2 : (['b', 'y', 't', 'e', 's', ' '] : List Char) ++
      (natDigits st ++ (['-'] ++ ((intToString e).data ++ (['/'] ++ natDigits S)))) =
      ['b', 'y', 't', 'e', 's', ' '] ++ ('*' :: '/' :: natDigits S) := hd
  have h2 := List.append_cancel_left hd2
  rw [hct] at h2
  simp only [List.cons_append] at h2
  have h3 : c = '*' := (List.cons.injEq _ _ _ _ ▸ h2).1
  rw [h3] at hdig
  exact absurd hdig (by decide)

/-- C2: a parsed range start at or beyond the blob size is not special-cased:
no 416 and no `bytes */S` Content-Range are produced; with no end supplied the
end defaults to `S - 1` and the chunk size `end - start + 1` is zero or
negative, the partial-content branch answering with it unchanged. -/
theorem range_beyond_eof_unguarded :
    (∀ (s : SState) (n : Nat) (v : MediaFile) (bytes : List Nat) (st : Nat),
      getMediaFileById s (n : Int) = some v → v.fileType = "video" →
      lookupFile s ("uploads/videos/" ++ v.filename) = some bytes →
      bytes.length ≤ st →
      (streamVideo (natToString n) (some ("bytes=" ++ natToString st ++ "-")) s).status = 206 ∧
      (streamVideo (natToString n) (some ("bytes=" ++ natToString st ++ "-")) s).status ≠ 416 ∧
      headerVal (streamVideo (natToString n) (some ("bytes=" ++ natToString st ++ "-")) s)
          "Content-Range" =
        some ("bytes " ++ natToString st ++ "-" ++ intToString ((bytes.length : Int) - 1) ++
          "/" ++ natToString bytes.length) ∧
      headerVal (streamVideo (natToString n) (some ("bytes=" ++ natToString st ++ "-")) s)
          "Content-Range" ≠ some ("bytes */" ++ natToString bytes.length) ∧
      headerVal (streamVideo (natToString n) (some ("bytes=" ++ natToString st ++ "-")) s)
          "Content-Length" =
        some (intToString ((bytes.length : Int) - (st : Int))) ∧
      (bytes.length : Int) - (st : Int) ≤ 0) ∧
    (∀ (s : SState) (n : Nat) (a : AudioRecording) (bytes : List Nat) (st : Nat),
      getAudioRecordingById s (n : Int) = some a →
      lookupFile s ("uploads/audio/" ++ a.filename) = some bytes →
      bytes.length ≤ st →
      (streamAudio (natToString n) (some ("bytes=" ++ natToString st ++ "-")) s).status = 206 ∧
      (streamAudio (natToString n) (some ("bytes=" ++ natToString st ++ "-")) s).status ≠ 416 ∧
      headerVal (streamAudio (natToString n) (some ("bytes=" ++ natToString st ++ "-")) s)
          "Content-Range" =
        some ("bytes " ++ natToString st ++ "-" ++ intToString ((bytes.length : Int) - 1) ++
          "/" ++ natToString bytes.length) ∧
      headerVal (streamAudio (natToString n) (some ("bytes=" ++ natToString st ++ "-")) s)
          "Content-Range" ≠ some ("bytes */" ++ natToString bytes.length) ∧
      headerVal (streamAudio (natToString n) (some ("bytes=" ++ natToString st ++ "-")) s)
          "Content-Length" =
        some (intToString ((bytes.length : Int) - (st : Int))) ∧
      (bytes.length : Int) - (st : Int) ≤ 0) := by
  constructor
  · intro s n v bytes st hv hft hf hle
    have hch : (((bytes.length : Int) - 1) - (st : Int) + 1) =
        (bytes.length : Int) - (st : Int) := by ring
    have hresp : streamVideo (natToString n) (some ("bytes=" ++ natToString st ++ "-")) s =
        { status := 206
          headers := [
            ("Content-Range", "bytes " ++ natToString st ++ "-" ++
              intToString ((bytes.length : Int) - 1) ++ "/" ++ natToString bytes.length),
            ("Accept-Ranges", "bytes"),
            ("Content-Length", intToString ((bytes.length : Int) - (st : Int))),
            ("Content-Type", v.mimeType)]
          body := Body.bytes (readWindow bytes (st : Int) ((bytes.length : Int) - 1)) } := by
      rw [streamVideo_range s n v bytes _ hv hft hf, rangeRespond_open,
        intToString_natCast st, hch]
    rw [hresp]
    refine ⟨rfl, (by decide : (206 : Nat) ≠ 416), headerVal_cons_self _ _, ?_, ?_, by omega⟩
    · rw [headerVal_cons_self _ _]
      intro h
      exact contentRange_ne_star st bytes.length _ (Option.some.inj h)
    · rw [headerVal_cons_ne (by decide), headerVal_cons_ne (by decide)]
      exact headerVal_cons_self _ _
  · intro s n a bytes st ha hf hle
    have hch : (((bytes.length : Int) - 1) - (st : Int) + 1) =
        (bytes.length : Int) - (st : Int) := by ring
    have hresp : streamAudio (natToString n) (some ("bytes=" ++ natToString st ++ "-")) s =
        { status := 206
          headers := [
            ("Content-Range", "bytes " ++ natToString st ++ "-" ++
              intToString ((bytes.length : Int) - 1) ++ "/" ++ natToString bytes.length),
            ("Accept-Ranges", "bytes"),
            ("Content-Length", intToString ((bytes.length : Int) - (st : Int))),
            ("Content-Type", "audio/webm")]
          body := Body.bytes (readWindow bytes (st : Int) ((bytes.length : Int) - 1)) } := by
      rw [streamAudio_range s n a bytes _ ha hf, rangeRespond_open,
        intToString_natCast st, hch]
    rw [hresp]
    refine ⟨rfl, (by decide : (206 : Nat) ≠ 416), headerVal_cons_self _ _, ?_, ?_, by omega⟩
    · rw [headerVal_cons_self _ _]
      intro h
      exact contentRange_ne_star st bytes.length _ (Option.some.inj h)
    · rw [headerVal_cons_ne (by decide), headerVal_cons_ne (by decide)]
      exact headerVal_cons_self _ _

/-- C3: an open-ended range `bytes=start-` produces exactly the response of
the explicit range `bytes=start-(S-1)`, on both stream endpoints. -/
theorem open_range_equiv_explicit :
    (∀ (s : SState) (n : Nat) (v : MediaFile) (bytes : List Nat) (st : Nat),
      getMediaFileById s (n : Int) = some v → v.fileType = "video" →
      lookupFile s ("uploads/videos/" ++ v.filename) = some bytes →
      st < bytes.length →
      streamVideo (natToString n) (some ("bytes=" ++ natToString st ++ "-")) s =
        streamVideo (natToString n)
          (some ("bytes=" ++ natToString st ++ "-" ++ natToString (bytes.length - 1))) s) ∧
    (∀ (s : SState) (n : Nat) (a : AudioRecording) (bytes : List Nat) (st : Nat),
      getAudioRecordingById s (n : Int) = some a →
      lookupFile s ("uploads/audio/" ++ a.filename) = some bytes →
      st < bytes.length →
      streamAudio (natToString n) (some ("bytes=" ++ natToString st ++ "-")) s =
        streamAudio (natToString n)
          (some ("bytes=" ++ natToString st ++ "-" ++ natToString (bytes.length - 1))) s) := by
  constructor
  · intro s n v bytes st hv hft hf hlt
    rw [streamVideo_range s n v bytes _ hv hft hf, streamVideo_range s n v bytes _ hv hft hf,
      rangeRespond_open, rangeRespond_closed]
    have hc : ((bytes.length : Int) - 1) = ((bytes.length - 1 : Nat) : Int) := by omega
    rw [hc]
  · intro s n a bytes st ha hf hlt
    rw [streamAudio_range s n a bytes _ ha hf, streamAudio_range s n a bytes _ ha hf,
      rangeRespond_open, rangeRespond_closed]
    have hc : ((bytes.length : Int) - 1) = ((bytes.length - 1 : Nat) : Int) := by omega
    rw [hc]

def c1Video : MediaFile :=
  ⟨1, "v.mp4", "v.mp4", "video/mp4", 6, "video", 0, some 0, some "", none⟩

def c1State : SState :=
  ⟨[c1Video], 2, [], 1, [], 1, [("uploads/videos/v.mp4", [10, 11, 12, 13, 14, 15])]⟩

/-- Witness for C1: range 2-4 of a six-byte stored video blob. -/
theorem range_request_partial_content_witness :
    (streamVideo (natToString 1)
        (some ("bytes=" ++ natToString 2 ++ "-" ++ natToString 4)) c1State).status = 206 ∧
    headerVal (streamVideo (natToString 1)
        (some ("bytes=" ++ natToString 2 ++ "-" ++ natToString 4)) c1State) "Content-Range" =
      some ("bytes " ++ natToString 2 ++ "-" ++ natToString 4 ++ "/" ++
        natToString (List.length [10, 11, 12, 13, 14, 15])) ∧
    headerVal (streamVideo (natToString 1)
        (some ("bytes=" ++ natToString 2 ++ "-" ++ natToString 4)) c1State) "Accept-Ranges" =
      some "bytes" ∧
    headerVal (streamVideo (natToString 1)
        (some ("bytes=" ++ natToString 2 ++ "-" ++ natToString 4)) c1State) "Content-Length" =
      some (natToString (4 - 2 + 1)) ∧
    (streamVideo (natToString 1)
        (some ("bytes=" ++ natToString 2 ++ "-" ++ natToString 4)) c1State).body =
      Body.bytes ((List.range (4 - 2 + 1)).map
        (fun k => List.getD [10, 11, 12, 13, 14, 15] (2 + k) 0)) :=
  range_request_partial_content.1 c1State 1 c1Video [10, 11, 12, 13, 14, 15] 2 4
    (by decide) rfl (by decide) (by decide) (by decide)

def c2Video : MediaFile :=
  ⟨1, "v2.mp4", "v2.mp4", "video/mp4", 4, "video", 0, some 0, some "", none⟩

def c2State : SState :=
  ⟨[c2Video], 2, [], 1, [], 1, [("uploads/videos/v2.mp4", [1, 2, 3, 4])]⟩

/-- Witness for C2: open-ended range starting at 9 on a four-byte blob. -/
theorem range_beyond_eof_unguarded_witness :
    (streamVideo (natToString 1) (some ("bytes=" ++ natToString 9 ++ "-")) c2State).status =
      206 ∧
    (streamVideo (natToString 1) (some ("bytes=" ++ natToString 9 ++ "-")) c2State).status ≠
      416 ∧
    headerVal (streamVideo (natToString 1) (some ("bytes=" ++ natToString 9 ++ "-")) c2State)
        "Content-Range" =
      some ("bytes " ++ natToString 9 ++ "-" ++
        intToString ((List.length [1, 2, 3, 4] : Int) - 1) ++ "/" ++
        natToString (List.length [1, 2, 3, 4])) ∧
    headerVal (streamVideo (natToString 1) (some ("bytes=" ++ natToString 9 ++ "-")) c2State)
        "Content-Range" ≠ some ("bytes */" ++ natToString (List.length [1, 2, 3, 4])) ∧
    headerVal (streamVideo (natToString 1) (some ("bytes=" ++ natToString 9 ++ "-")) c2State)
        "Content-Length" =
      some (intToString ((List.length [1, 2, 3, 4] : Int) - (9 : Nat))) ∧
    (List.length [1, 2, 3, 4] : Int) - ((9 : Nat) : Int) ≤ 0 :=
  range_beyond_eof_unguarded.1 c2State 1 c2Video [1, 2, 3, 4] 9 (by decide) rfl (by decide)
    (by decide)

def c3Video : MediaFile :=
  ⟨1, "v3.mp4", "v3.mp4", "video/mp4", 5, "video", 0, some 0, some "", none⟩

def c3State : SState :=
  ⟨[c3Video], 2, [], 1, [], 1, [("uploads/videos/v3.mp4", [5, 6, 7, 8, 9])]⟩

/-- Witness for C3: open range from 1 on a five-byte blob equals the explicit
range 1-4. -/
theorem open_range_equiv_explicit_witness :
    streamVideo (natToString 1) (some ("bytes=" ++ natToString 1 ++ "-")) c3State =
      streamVideo (natToString 1)
        (some ("bytes=" ++ natToString 1 ++ "-" ++
          natToString (List.length [5, 6, 7, 8, 9] - 1))) c3State :=
  open_range_equiv_explicit.1 c3State 1 c3Video [5, 6, 7, 8, 9] 1 (by decide) rfl (by decide)
    (by decide)

def c4Recording : AudioRecording :=
  ⟨1, "Recording A", "rec1.webm", 4, 3, 10, "audio/mp3"⟩

def c4State : SState :=
  ⟨[], 1, [c4Recording], 2, [], 1, [("uploads/audio/rec1.webm", [1, 2, 3, 4])]⟩

/-- Counterexample to C4 as stated: an audio recording stored with content
type `audio/mp3` exists with its blob on disk, yet the no-range stream
response carries `Content-Type: audio/webm`, not the stored content type. -/
theorem full_request_content_type_counterexample :
    getAudioRecordingById c4State 1 = some c4Recording ∧
    lookupFile c4State ("uploads/audio/" ++ c4Recording.filename) = some [1, 2, 3, 4] ∧
    c4Recording.format = "audio/mp3" ∧
    (streamAudio "1" none c4State).status = 200 ∧
    headerVal (streamAudio "1" none c4State) "Content-Type" = some "audio/webm" ∧
    headerVal (streamAudio "1" none c4State) "Content-Type" ≠ some c4Recording.format :=
  ⟨by decide, by decide, rfl, by decide, by decide, by decide⟩

/-- C4 (amended): a stream request with no Range header on an existing record
with its blob present answers 200 with `Content-Length = S` and the whole blob
as body; the `Content-Type` is the stored `mimeType` for videos and the
constant `audio/webm` for audio recordings. -/
theorem full_request_ok :
    (∀ (s : SState) (n : Nat) (v : MediaFile) (bytes : List Nat),
      getMediaFileById s (n : Int) = some v → v.fileType = "video" →
      lookupFile s ("uploads/videos/" ++ v.filename) = some bytes →
      (streamVideo (natToString n) none s).status = 200 ∧
      headerVal (streamVideo (natToString n) none s) "Content-Length" =
        some (natToString bytes.length) ∧
      headerVal (streamVideo (natToString n) none s) "Content-Type" = some v.mimeType ∧
      (streamVideo (natToString n) none s).body = Body.bytes bytes) ∧
    (∀ (s : SState) (n : Nat) (a : AudioRecording) (bytes : List Nat),
      getAudioRecordingById s (n : Int) = some a →
      lookupFile s ("uploads/audio/" ++ a.filename) = some bytes →
      (streamAudio (natToString n) none s).status = 200 ∧
      headerVal (streamAudio (natToString n) none s) "Content-Length" =
        some (natToString bytes.length) ∧
      headerVal (streamAudio (natToString n) none s) "Content-Type" = some "audio/webm" ∧
      (streamAudio (natToString n) none s).body = Body.bytes bytes) := by
  constructor
  · intro s n v bytes hv hft hf
    rw [streamVideo_noRange s n v bytes hv hft hf]
    refine ⟨rfl, headerVal_cons_self _ _, ?_, rfl⟩
    rw [headerVal_cons_ne (by decide)]
    exact headerVal_cons_self _ _
  · intro s n a bytes ha hf
    rw [streamAudio_noRange s n a bytes ha hf]
    refine ⟨rfl, headerVal_cons_self _ _, ?_, rfl⟩
    rw [headerVal_cons_ne (by decide)]
    exact headerVal_cons_self _ _

def c4wVideo : MediaFile :=
  ⟨1, "w.mp4", "w.mp4", "video/mp4", 3, "video", 0, some 0, some "", none⟩

def c4wState : SState :=
  ⟨[c4wVideo], 2, [], 1, [], 1, [("uploads/videos/w.mp4", [7, 8, 9])]⟩

/-- Witness for the amended C4 on a concrete video and a concrete audio
recording. -/
theorem full_request_ok_witness :
    ((streamVideo (natToString 1) none c4wState).status = 200 ∧
      headerVal (streamVideo (natToString 1) none c4wState) "Content-Length" =
        some (natToString (List.length [7, 8, 9])) ∧
      headerVal (streamVideo (natToString 1) none c4wState) "Content-Type" =
        some c4wVideo.mimeType ∧
      (streamVideo (natToString 1) none c4wState).body = Body.bytes [7, 8, 9]) ∧
    ((streamAudio (natToString 1) none c4State).status = 200 ∧
      headerVal (streamAudio (natToString 1) none c4State) "Content-Length" =
        some (natToString (List.length [1, 2, 3, 4])) ∧
      headerVal (streamAudio (natToString 1) none c4State) "Content-Type" =
        some "audio/webm" ∧
      (streamAudio (natToString 1) none c4State).body = Body.bytes [1, 2, 3, 4]) :=
  ⟨full_request_ok.1 c4wState 1 c4wVideo [7, 8, 9] (by decide) rfl (by decide),
    full_request_ok.2 c4State 1 c4Recording [1, 2, 3, 4] (by decide) (by decide)⟩

/-- C6: an unknown id (or a record of the wrong kind), and an existing record
whose blob file is absent, both answer 404 with a `{message}` body, and no
blob bytes are sent. -/
theorem stream_not_found :
    (∀ (s : SState) (n : Nat) (rng : Option String),
      getMediaFileById s (n : Int) = none →
      streamVideo (natToString n) rng s = jsonMsg 404 "Video not found" ∧
      ∀ bs, (streamVideo (natToString n) rng s).body ≠ Body.bytes bs) ∧
    (∀ (s : SState) (n : Nat) (v : MediaFile) (rng : Option String),
      getMediaFileById s (n : Int) = some v → v.fileType ≠ "video" →
      streamVideo (natToString n) rng s = jsonMsg 404 "Video not found" ∧
      ∀ bs, (streamVideo (natToString n) rng s).body ≠ Body.bytes bs) ∧
    (∀ (s : SState) (n : Nat) (v : MediaFile) (rng : Option String),
      getMediaFileById s (n : Int) = some v → v.fileType = "video" →
      lookupFile s ("uploads/videos/" ++ v.filename) = none →
      streamVideo (natToString n) rng s = jsonMsg 404 "Video file not found" ∧
      ∀ bs, (streamVideo (natToString n) rng s).body ≠ Body.bytes bs) ∧
    (∀ (s : SState) (n : Nat) (rng : Option String),
      getAudioRecordingById s (n : Int) = none →
      streamAudio (natToString n) rng s = jsonMsg 404 "Recording not found" ∧
      ∀ bs, (streamAudio (natToString n) rng s).body ≠ Body.bytes bs) ∧
    (∀ (s : SState) (n : Nat) (a : AudioRecording) (rng : Option String),
      getAudioRecordingById s (n : Int) = some a →
      lookupFile s ("uploads/audio/" ++ a.filename) = none →
      streamAudio (natToString n) rng s = jsonMsg 404 "Audio file not found" ∧
      ∀ bs, (streamAudio (natToString n) rng s).body ≠ Body.bytes bs) := by
  refine ⟨?_, ?_, ?_, ?_, ?_⟩
  · intro s n rng hv
    have he : streamVideo (natToString n) rng s = jsonMsg 404 "Video not found" := by
      simp only [streamVideo, jsParseInt_natToString, hv]
    exact ⟨he, fun bs => by rw [he]; exact fun hc => Body.noConfusion hc⟩
  · intro s n v rng hv hft
    have he : streamVideo (natToString n) rng s = jsonMsg 404 "Video not found" := by
      simp only [streamVideo, jsParseInt_natToString, hv]
      rw [if_pos hft]
    exact ⟨he, fun bs => by rw [he]; exact fun hc => Body.noConfusion hc⟩
  · intro s n v rng hv hft hf
    have he : streamVideo (natToString n) rng s = jsonMsg 404 "Video file not found" := by
      simp only [streamVideo, jsParseInt_natToString, hv, hft, hf, ne_eq, not_true_eq_false,
        if_false]
    exact ⟨he, fun bs => by rw [he]; exact fun hc => Body.noConfusion hc⟩
  · intro s n rng ha
    have he : streamAudio (natToString n) rng s = jsonMsg 404 "Recording not found" := by
      simp only [streamAudio, jsParseInt_natToString, ha]
    exact ⟨he, fun bs => by rw [he]; exact fun hc => Body.noConfusion hc⟩
  · intro s n a rng ha hf
    have he : streamAudio (natToString n) rng s = jsonMsg 404 "Audio file not found" := by
      simp only [streamAudio, jsParseInt_natToString, ha, hf]
    exact ⟨he, fun bs => by rw [he]; exact fun hc => Body.noConfusion hc⟩

def c6Video : MediaFile :=
  ⟨3, "gone.mp4", "gone.mp4", "video/mp4", 2, "video", 0, some 0, some "", none⟩

def c6State : SState := ⟨[c6Video], 4, [], 1, [], 1, []⟩

/-- Witness for C6: an unknown id on an empty store, and an existing video
record whose blob file is missing. -/
theorem stream_not_found_witness :
    (streamVideo (natToString 7) (some "bytes=0-1") initState =
      jsonMsg 404 "Video not found" ∧
      ∀ bs, (streamVideo (natToString 7) (some "bytes=0-1") initState).body ≠
        Body.bytes bs) ∧
    (streamVideo (natToString 3) none c6State = jsonMsg 404 "Video file not found" ∧
      ∀ bs, (streamVideo (natToString 3) none c6State).body ≠ Body.bytes bs) :=
  ⟨stream_not_found.1 initState 7 (some "bytes=0-1") (by decide),
    stream_not_found.2.2.1 c6State 3 c6Video none (by decide) rfl (by decide)⟩

theorem find?_filter_self_none {α : Type} (l : List α) (p : α → Bool) :
    (l.filter (fun x => !(p x))).find? p = none := by
  rw [List.find?_eq_none]
  intro x hx
  have := (List.mem_filter.mp hx).2
  simp only [Bool.not_eq_true'] at this
  simp [this]

theorem mem_insertByDateDesc {r q : AudioRecording} {l : List AudioRecording} :
    q ∈ insertByDateDesc r l ↔ q = r ∨ q ∈ l := by
  induction l with
  | nil => simp [insertByDateDesc]
  | cons x t ih =>
    rw [insertByDateDesc]
    by_cases hc : r.dateRecorded ≤ x.dateRecorded
    · rw [if_pos hc]
      simp only [List.mem_cons, ih]
      tauto
    · rw [if_neg hc]
      simp only [List.mem_cons]

theorem mem_sortByDateDesc {q : AudioRecording} {l : List AudioRecording} :
    q ∈ sortByDateDesc l ↔ q ∈ l := by
  induction l with
  | nil => simp [sortByDateDesc]
  | cons x t ih =>
    rw [sortByDateDesc]
    rw [mem_insertByDateDesc]
    simp [ih]

/-- C7: a successful DELETE of a stored video or audio recording answers 204
with an empty body; afterwards the record is absent from the list endpoint, a
GET by the same id answers 404, a stream attempt answers 404, and the blob
file is gone from the uploads directory. -/
theorem delete_removes_record_and_blob :
    (∀ (s : SState) (n : Nat) (v : MediaFile),
      getMediaFileById s (n : Int) = some v → v.fileType = "video" →
      (deleteVideo (natToString n) s).1 = ⟨204, [], Body.empty⟩ ∧
      (∀ q, q ∈ getMediaFilesOf (deleteVideo (natToString n) s).2 "video" →
        (q.id : Int) ≠ (n : Int)) ∧
      getVideoById (natToString n) (deleteVideo (natToString n) s).2 =
        jsonMsg 404 "Video not found" ∧
      (∀ rng, streamVideo (natToString n) rng (deleteVideo (natToString n) s).2 =
        jsonMsg 404 "Video not found") ∧
      lookupFile (deleteVideo (natToString n) s).2 ("uploads/videos/" ++ v.filename) =
        none) ∧
    (∀ (s : SState) (n : Nat) (a : AudioRecording),
      getAudioRecordingById s (n : Int) = some a →
      (deleteRecording (natToString n) s).1 = ⟨204, [], Body.empty⟩ ∧
      (∀ q, q ∈ sortByDateDesc (deleteRecording (natToString n) s).2.recordings →
        (q.id : Int) ≠ (n : Int)) ∧
      getRecordingById (natToString n) (deleteRecording (natToString n) s).2 =
        jsonMsg 404 "Recording not found" ∧
      (∀ rng, streamAudio (natToString n) rng (deleteRecording (natToString n) s).2 =
        jsonMsg 404 "Recording not found") ∧
      lookupFile (deleteRecording (natToString n) s).2 ("uploads/audio/" ++ a.filename) =
        none) := by
  constructor
  · intro s n v hv hft
    have hpath : ("uploads/" ++ "video" ++ "s/" : String) = "uploads/videos/" := by decide
    have hdel : deleteVideo (natToString n) s =
        (⟨204, [], Body.empty⟩,
          { s with
            uploads := removeFile s.uploads ("uploads/videos/" ++ v.filename),
            mediaFiles := s.mediaFiles.filter (fun r => (r.id : Int) != (n : Int)) }) := by
      simp only [deleteVideo, jsParseInt_natToString, hv, hft, ne_eq, not_true_eq_false,
        if_false, deleteMediaFile, hpath]
      rw [if_pos trivial]
    rw [hdel]
    have hfindNone : (s.mediaFiles.filter (fun r => (r.id : Int) != (n : Int))).find?
        (fun r => (r.id : Int) == (n : Int)) = none := by
      have h2 := find?_filter_self_none s.mediaFiles (fun r => (r.id : Int) == (n : Int))
      simp only [bne] at h2 ⊢
      exact h2
    refine ⟨rfl, ?_, ?_, ?_, ?_⟩
    · intro q hq
      have hq2 := (List.mem_filter.mp (List.mem_filter.mp hq).1).2
      simpa [bne] using hq2
    · simp only [getVideoById, jsParseInt_natToString, getMediaFileById]
      rw [hfindNone]
    · intro rng
      simp only [streamVideo, jsParseInt_natToString, getMediaFileById]
      rw [hfindNone]
    · have hnone : (s.uploads.filter
          (fun e => e.1 != ("uploads/videos/" ++ v.filename))).find?
          (fun e => e.1 == ("uploads/videos/" ++ v.filename)) = none := by
        have h2 := find?_filter_self_none s.uploads
          (fun e => e.1 == ("uploads/videos/" ++ v.filename))
        simp only [bne] at h2 ⊢
        exact h2
      simp only [lookupFile, removeFile, hnone, Option.map_none']
  · intro s n a ha
    have hdel : deleteRecording (natToString n) s =
        (⟨204, [], Body.empty⟩,
          { s with
            uploads := removeFile s.uploads ("uploads/audio/" ++ a.filename),
            recordings := s.recordings.filter (fun q => (q.id : Int) != (n : Int)) }) := by
      simp only [deleteRecording, jsParseInt_natToString, ha, deleteAudioRecording]
      rw [if_pos trivial]
    rw [hdel]
    have hfindNone : (s.recordings.filter (fun q => (q.id : Int) != (n : Int))).find?
        (fun q => (q.id : Int) == (n : Int)) = none := by
      have h2 := find?_filter_self_none s.recordings (fun q => (q.id : Int) == (n : Int))
      simp only [bne] at h2 ⊢
      exact h2
    refine ⟨rfl, ?_, ?_, ?_, ?_⟩
    · intro q hq
      have hq2 := (List.mem_filter.mp (mem_sortByDateDesc.mp hq)).2
      simpa [bne] using hq2
    · simp only [getRecordingById, jsParseInt_natToString, getAudioRecordingById]
      rw [hfindNone]
    · intro rng
      simp only [streamAudio, jsParseInt_natToString, getAudioRecordingById]
      rw [hfindNone]
    · have hnone : (s.uploads.filter
          (fun e => e.1 != ("uploads/audio/" ++ a.filename))).find?
          (fun e => e.1 == ("uploads/audio/" ++ a.filename)) = none := by
        have h2 := find?_filter_self_none s.uploads
          (fun e => e.1 == ("uploads/audio/" ++ a.filename))
        simp only [bne] at h2 ⊢
        exact h2
      simp only [lookupFile, removeFile, hnone, Option.map_none']

def c7Video : MediaFile :=
  ⟨2, "d.mp4", "d.mp4", "video/mp4", 2, "video", 0, some 0, some "", none⟩

def c7Rec : AudioRecording := ⟨3, "R", "r.webm", 2, 1, 4, "audio/webm"⟩

def c7State : SState :=
  ⟨[c7Video], 3, [c7Rec], 4, [], 1,
    [("uploads/videos/d.mp4", [1, 2]), ("uploads/audio/r.webm", [3, 4])]⟩

/-- Witness for C7 on a concrete stored video and audio recording. -/
theorem delete_removes_record_and_blob_witness :
    ((deleteVideo (natToString 2) c7State).1 = ⟨204, [], Body.empty⟩ ∧
      getVideoById (natToString 2) (deleteVideo (natToString 2) c7State).2 =
        jsonMsg 404 "Video not found" ∧
      streamVideo (natToString 2) none (deleteVideo (natToString 2) c7State).2 =
        jsonMsg 404 "Video not found" ∧
      lookupFile (deleteVideo (natToString 2) c7State).2
        ("uploads/videos/" ++ c7Video.filename) = none) ∧
    ((deleteRecording (natToString 3) c7State).1 = ⟨204, [], Body.empty⟩ ∧
      getRecordingById (natToString 3) (deleteRecording (natToString 3) c7State).2 =
        jsonMsg 404 "Recording not found" ∧
      streamAudio (natToString 3) none (deleteRecording (natToString 3) c7State).2 =
        jsonMsg 404 "Recording not found" ∧
      lookupFile (deleteRecording (natToString 3) c7State).2
        ("uploads/audio/" ++ c7Rec.filename) = none) := by
  have hV := delete_removes_record_and_blob.1 c7State 2 c7Video (by decide) rfl
  have hA := delete_removes_record_and_blob.2 c7State 3 c7Rec (by decide)
  exact ⟨⟨hV.1, hV.2.2.1, hV.2.2.2.1 none, hV.2.2.2.2⟩,
    ⟨hA.1, hA.2.2.1, hA.2.2.2.1 none, hA.2.2.2.2⟩⟩

theorem find?_map_update {l : List AudioRecording} {id : Int} {r r2 : AudioRecording}
    (hf : l.find? (fun q => (q.id : Int) == id) = some r) (hid : r2.id = r.id) :
    (l.map (fun q => if (q.id : Int) == id then r2 else q)).find?
      (fun q => (q.id : Int) == id) = some r2 := by
  induction l with
  | nil => simp [List.find?] at hf
  | cons x t ih =>
    by_cases hx : ((x.id : Int) == id) = true
    · simp only [List.find?, hx] at hf
      have hxr : x = r := Option.some.inj hf
      have hr2 : ((r2.id : Int) == id) = true := by
        rw [hid, ← hxr]
        exact hx
      simp only [List.map_cons, if_pos hx, List.find?, hr2]
    · have hx2 : ((x.id : Int) == id) = false := by
        cases hb : ((x.id : Int) == id)
        · rfl
        · exact absurd hb hx
      simp only [List.find?, hx2] at hf
      simp only [List.map_cons, if_neg hx]
      simp only [List.find?, hx2]
      exact ih hf

theorem renameRecording_success (s : SState) (n : Nat) (r : AudioRecording) (nm : String)
    (hr : getAudioRecordingById s (n : Int) = some r) (hnm : jsTrim nm ≠ "") :
    renameRecording (natToString n) (some (BodyVal.str nm)) s =
      (⟨200, [], Body.jsonAudio { r with name := jsTrim nm }⟩,
        { s with recordings := (s.recordings.map (fun q =>
            if (q.id : Int) == ((n : Nat) : Int) then { r with name := jsTrim nm }
            else q)) }) := by
  have hne : nm ≠ "" := by
    intro h
    apply hnm
    rw [h]
    rfl
  have ht : bvTruthy (some (BodyVal.str nm)) = true := by
    simp [bvTruthy, hne]
  simp only [renameRecording, jsParseInt_natToString, ht, Bool.not_true, Bool.false_eq_true,
    if_false, if_neg hnm, updateAudioRecordingName, hr]

/-- C8 (amended): PATCH rename with a string name whose trimmed value is
non-empty sets the record's name to the trimmed value, leaves filename, size,
duration, format and dateRecorded unchanged, and a subsequent GET by the same
id returns the renamed record. -/
theorem rename_updates_name_only :
    ∀ (s : SState) (n : Nat) (r : AudioRecording) (nm : String),
      getAudioRecordingById s (n : Int) = some r → jsTrim nm ≠ "" →
      (renameRecording (natToString n) (some (BodyVal.str nm)) s).1 =
        ⟨200, [], Body.jsonAudio { r with name := jsTrim nm }⟩ ∧
      getAudioRecordingById (renameRecording (natToString n) (some (BodyVal.str nm)) s).2
          (n : Int) = some { r with name := jsTrim nm } ∧
      getRecordingById (natToString n)
          (renameRecording (natToString n) (some (BodyVal.str nm)) s).2 =
        ⟨200, [], Body.jsonAudio { r with name := jsTrim nm }⟩ ∧
      ({ r with name := jsTrim nm }).name = jsTrim nm ∧
      ({ r with name := jsTrim nm }).filename = r.filename ∧
      ({ r with name := jsTrim nm }).size = r.size ∧
      ({ r with name := jsTrim nm }).duration = r.duration ∧
      ({ r with name := jsTrim nm }).format = r.format ∧
      ({ r with name := jsTrim nm }).dateRecorded = r.dateRecorded := by
  intro s n r nm hr hnm
  rw [renameRecording_success s n r nm hr hnm]
  have hfind : getAudioRecordingById
      ({ s with recordings := (s.recordings.map (fun q =>
          if (q.id : Int) == ((n : Nat) : Int) then { r with name := jsTrim nm }
          else q)) }) (n : Int) = some { r with name := jsTrim nm } := by
    unfold getAudioRecordingById at hr ⊢
    exact find?_map_update hr rfl
  refine ⟨rfl, hfind, ?_, rfl, rfl, rfl, rfl, rfl, rfl⟩
  simp only [getRecordingById, jsParseInt_natToString]
  rw [hfind]

def c8Rec : AudioRecording := ⟨1, "Recording A", "rec.webm", 4, 3, 10, "audio/webm"⟩

def c8State : SState := ⟨[], 1, [c8Rec], 2, [], 1, []⟩

/-- Counterexample to C8 as stated: `" "` is a non-empty string, yet the PATCH
answers 400 and the record keeps its old name rather than being renamed to the
trimmed value (the empty string). -/
theorem rename_counterexample :
    (" " : String) ≠ "" ∧
    (renameRecording "1" (some (BodyVal.str " ")) c8State).1 =
      jsonMsg 400 "Invalid name provided" ∧
    getAudioRecordingById (renameRecording "1" (some (BodyVal.str " ")) c8State).2 1 =
      some c8Rec ∧
    c8Rec.name ≠ jsTrim " " :=
  ⟨by decide, by decide, by decide, by decide⟩

def c8wRec : AudioRecording := ⟨1, "Recording A", "r8.webm", 4, 3, 10, "audio/webm"⟩

def c8wState : SState := ⟨[], 1, [c8wRec], 2, [], 1, []⟩

/-- Witness for the amended C8: renaming "Recording A" to "Meeting Notes". -/
theorem rename_updates_name_only_witness :
    (renameRecording (natToString 1) (some (BodyVal.str "Meeting Notes")) c8wState).1 =
      ⟨200, [], Body.jsonAudio { c8wRec with name := jsTrim "Meeting Notes" }⟩ ∧
    getAudioRecordingById
        (renameRecording (natToString 1) (some (BodyVal.str "Meeting Notes")) c8wState).2
        ((1 : Nat) : Int) = some { c8wRec with name := jsTrim "Meeting Notes" } ∧
    getRecordingById (natToString 1)
        (renameRecording (natToString 1) (some (BodyVal.str "Meeting Notes")) c8wState).2 =
      ⟨200, [], Body.jsonAudio { c8wRec with name := jsTrim "Meeting Notes" }⟩ ∧
    ({ c8wRec with name := jsTrim "Meeting Notes" }).name = jsTrim "Meeting Notes" ∧
    ({ c8wRec with name := jsTrim "Meeting Notes" }).filename = c8wRec.filename ∧
    ({ c8wRec with name := jsTrim "Meeting Notes" }).size = c8wRec.size ∧
    ({ c8wRec with name := jsTrim "Meeting Notes" }).duration = c8wRec.duration ∧
    ({ c8wRec with name := jsTrim "Meeting Notes" }).format = c8wRec.format ∧
    ({ c8wRec with name := jsTrim "Meeting Notes" }).dateRecorded = c8wRec.dateRecorded :=
  rename_updates_name_only c8wState 1 c8wRec "Meeting Notes" (by decide) (by decide)

/-- C10: when the `:id` path parameter parses to `NaN`, every by-id handler of
all four media kinds answers 400 with a `{message}` body and leaves the state
untouched, identically for every storage state — the storage layer is never
consulted and no 404 is produced. -/
theorem invalid_id_rejected_before_storage :
    ∀ (idStr : String), jsParseInt idStr = none → ∀ (s : SState),
      (getVideoById idStr s = jsonMsg 400 "Invalid video ID" ∧
        (∀ rng, streamVideo idStr rng s = jsonMsg 400 "Invalid video ID") ∧
        deleteVideo idStr s = (jsonMsg 400 "Invalid video ID", s)) ∧
      (getPdfById idStr s = jsonMsg 400 "Invalid PDF ID" ∧
        viewPdf idStr s = jsonMsg 400 "Invalid PDF ID" ∧
        downloadPdf idStr s = jsonMsg 400 "Invalid PDF ID" ∧
        (∀ pp ep pageStr, downloadPdfPage pp ep idStr pageStr s =
          jsonMsg 400 "Invalid PDF ID or page number") ∧
        deletePdf idStr s = (jsonMsg 400 "Invalid PDF ID", s)) ∧
      (getRecordingById idStr s = jsonMsg 400 "Invalid recording ID" ∧
        (∀ rng, streamAudio idStr rng s = jsonMsg 400 "Invalid recording ID") ∧
        downloadAudio idStr s = jsonMsg 400 "Invalid recording ID" ∧
        (∀ nv, renameRecording idStr nv s = (jsonMsg 400 "Invalid recording ID", s)) ∧
        deleteRecording idStr s = (jsonMsg 400 "Invalid recording ID", s)) ∧
      (getAssetById idStr s = jsonMsg 400 "Invalid asset ID" ∧
        serveWebGLAsset idStr s = jsonMsg 400 "Invalid asset ID" ∧
        deleteAsset idStr s = (jsonMsg 400 "Invalid asset ID", s)) := by
  intro idStr h s
  refine ⟨⟨?_, ?_, ?_⟩, ⟨?_, ?_, ?_, ?_, ?_⟩, ⟨?_, ?_, ?_, ?_, ?_⟩, ⟨?_, ?_, ?_⟩⟩
  · simp only [getVideoById, h]
  · intro rng
    simp only [streamVideo, h]
  · simp only [deleteVideo, h]
  · simp only [getPdfById, h]
  · simp only [viewPdf, h]
  · simp only [downloadPdf, h]
  · intro pp ep pageStr
    cases hp : jsParseInt pageStr <;> simp only [downloadPdfPage, h, hp]
  · simp only [deletePdf, h]
  · simp only [getRecordingById, h]
  · intro rng
    simp only [streamAudio, h]
  · simp only [downloadAudio, h]
  · intro nv
    simp only [renameRecording, h]
  · simp only [deleteRecording, h]
  · simp only [getAssetById, h]
  · simp only [serveWebGLAsset, h]
  · simp only [deleteAsset, h]

/-- Witness for C10 at the concrete unparseable id "abc" on the fresh state. -/
theorem invalid_id_rejected_before_storage_witness :
    streamVideo "abc" none initState = jsonMsg 400 "Invalid video ID" ∧
    downloadPdfPage (fun _ => none) (fun b _ => b) "abc" "1" initState =
      jsonMsg 400 "Invalid PDF ID or page number" ∧
    renameRecording "abc" none initState = (jsonMsg 400 "Invalid recording ID", initState) ∧
    deleteAsset "abc" initState = (jsonMsg 400 "Invalid asset ID", initState) := by
  have h := invalid_id_rejected_before_storage "abc" (by decide) initState
  exact ⟨h.1.2.1 none, h.2.1.2.2.2.1 (fun _ => none) (fun b _ => b) "1",
    h.2.2.1.2.2.2.1 none, h.2.2.2.2.2⟩

def c5ExeFile : UploadedFile :=
  ⟨"webgl-1.exe", "malware.exe", "application/octet-stream", [7, 7]⟩

/-- Counterexample to C5 as stated: a `.exe` WebGL upload is rejected before
any blob or record is created, but the response status is 500 — the multer
extension check aborts with a plain `Error`, and the error middleware derives
its status as `err.status || err.statusCode || 500` — not the claimed 400. -/
theorem webgl_upload_validation_counterexample :
    (webglUploadRoute (some c5ExeFile) none none 0 initState).1.status = 500 ∧
    (webglUploadRoute (some c5ExeFile) none none 0 initState).1.status ≠ 400 ∧
    (webglUploadRoute (some c5ExeFile) none none 0 initState).1.body =
      Body.msg "Invalid file type for WebGL upload" ∧
    (webglUploadRoute (some c5ExeFile) none none 0 initState).2 = initState :=
  ⟨by decide, by decide, by decide, by decide⟩

theorem removeFile_append_fresh (u : List (String × List Nat)) (p : String) (b : List Nat)
    (h : u.find? (fun e => e.1 == p) = none) :
    removeFile (u ++ [(p, b)]) p = u := by
  unfold removeFile
  rw [List.filter_append]
  have h1 : u.filter (fun e => e.1 != p) = u := by
    rw [List.filter_eq_self]
    intro e he
    have h2 := List.find?_eq_none.mp h e he
    simp only [Bool.not_eq_true] at h2
    simp [bne, h2]
  have h2 : ([((p : String), b)].filter (fun e => e.1 != p)) = [] := by
    simp [bne]
  rw [h1, h2, List.append_nil]

/-- C5 (amended): a WebGL upload whose extension is outside the allow-list is
rejected by the multer extension check before the blob is written, with status
500 and a `{message}` body from the generic error middleware — not 400 — and
no record is created; a WebGL upload that passes the extension check but fails
the zod schema (non-string name) is answered with 400 and a
`{message, errors}` body, the just-written blob is deleted before responding,
and no record is created. -/
theorem webgl_upload_validation :
    (∀ (f : UploadedFile) (bn : Option BodyVal) (bd : Option String) (now : Nat) (s : SState),
      ([".gltf", ".glb", ".png", ".fbx"].contains (extnameLower f.originalName)) = false →
      webglUploadRoute (some f) bn bd now s =
        (jsonMsg 500 "Invalid file type for WebGL upload", s)) ∧
    (∀ (f : UploadedFile) (bd : Option String) (now : Nat) (s : SState),
      ([".gltf", ".glb", ".png", ".fbx"].contains (extnameLower f.originalName)) = true →
      lookupFile s ("uploads/webgl/" ++ f.filename) = none →
      (webglUploadRoute (some f) (some BodyVal.nonString) bd now s).1.status = 400 ∧
      (webglUploadRoute (some f) (some BodyVal.nonString) bd now s).1.body =
        Body.msgErrors "Invalid WebGL asset data" ∧
      (webglUploadRoute (some f) (some BodyVal.nonString) bd now s).2 = s) := by
  constructor
  · intro f bn bd now s hext
    simp only [webglUploadRoute, hext, Bool.false_eq_true, not_false_eq_true, if_true]
  · intro f bd now s hext hfresh
    have hresp : webglUploadRoute (some f) (some BodyVal.nonString) bd now s =
        (⟨400, [], Body.msgErrors "Invalid WebGL asset data"⟩,
          { s with uploads := removeFile (s.uploads ++
              [("uploads/webgl/" ++ f.filename, f.bytes)]) ("uploads/webgl/" ++ f.filename) }) := by
      simp only [webglUploadRoute, hext, not_true_eq_false, if_false, bvTruthy, if_true,
        Option.getD_some]
    rw [hresp]
    refine ⟨rfl, rfl, ?_⟩
    have hu : removeFile (s.uploads ++ [("uploads/webgl/" ++ f.filename, f.bytes)])
        ("uploads/webgl/" ++ f.filename) = s.uploads := by
      apply removeFile_append_fresh
      have := hfresh
      unfold lookupFile at this
      cases hfind : s.uploads.find? (fun e => e.1 == "uploads/webgl/" ++ f.filename) with
      | none => rfl
      | some e =>
        rw [hfind] at this
        simp at this
    rw [hu]

def c5GlbFile : UploadedFile := ⟨"webgl-2.glb", "model.glb", "model/gltf-binary", [1, 2, 3]⟩

/-- Witness for the amended C5: a `.exe` upload and a `.glb` upload with a
non-string name field, both on the fresh state. -/
theorem webgl_upload_validation_witness :
    webglUploadRoute (some c5ExeFile) none none 0 initState =
      (jsonMsg 500 "Invalid file type for WebGL upload", initState) ∧
    (webglUploadRoute (some c5GlbFile) (some BodyVal.nonString) none 0 initState).1.status =
      400 ∧
    (webglUploadRoute (some c5GlbFile) (some BodyVal.nonString) none 0 initState).1.body =
      Body.msgErrors "Invalid WebGL asset data" ∧
    (webglUploadRoute (some c5GlbFile) (some BodyVal.nonString) none 0 initState).2 =
      initState := by
  have h2 := webgl_upload_validation.2 c5GlbFile none 0 initState (by decide) (by decide)
  exact ⟨webgl_upload_validation.1 c5ExeFile none none 0 initState (by decide),
    h2.1, h2.2.1, h2.2.2⟩

/-- Shape invariant of a MediaFile record: video records carry duration and
resolution and no pageCount; pdf records carry a pageCount and no duration or
resolution. -/
def mediaShape (r : MediaFile) : Prop :=
  (r.fileType = "video" → r.duration.isSome = true ∧ r.resolution.isSome = true ∧
    r.pageCount = none) ∧
  (r.fileType = "pdf" → r.pageCount.isSome = true ∧ r.duration = none ∧ r.resolution = none)

/-- Invariant of the MediaFile store: every record is well-shaped with id
below the counter, and ids are pairwise distinct. -/
def mediaInvOn (l : List MediaFile) (k : Nat) : Prop :=
  (∀ r ∈ l, mediaShape r ∧ r.id < k) ∧ List.Pairwise (fun a b => a.id ≠ b.id) l

/-- Invariant of a server state, on its MediaFile component. -/
def MediaInv (s : SState) : Prop := mediaInvOn s.mediaFiles s.nextMediaId

theorem mediaInvOn_append {l : List MediaFile} {k : Nat} {m : MediaFile}
    (h : mediaInvOn l k) (hm : mediaShape m) (hid : m.id = k) :
    mediaInvOn (l ++ [m]) (k + 1) := by
  obtain ⟨h1, h2⟩ := h
  constructor
  · intro r hr
    rcases List.mem_append.mp hr with hr | hr
    · exact ⟨(h1 r hr).1, Nat.lt_succ_of_lt (h1 r hr).2⟩
    · rw [List.mem_singleton] at hr
      subst hr
      exact ⟨hm, by omega⟩
  · rw [List.pairwise_append]
    refine ⟨h2, List.pairwise_singleton _ _, ?_⟩
    intro a ha b hb
    rw [List.mem_singleton] at hb
    subst hb
    have := (h1 a ha).2
    omega

theorem mediaInvOn_filter {l : List MediaFile} {k : Nat} (p : MediaFile → Bool)
    (h : mediaInvOn l k) : mediaInvOn (l.filter p) k := by
  obtain ⟨h1, h2⟩ := h
  exact ⟨fun r hr => h1 r (List.mem_filter.mp hr).1, h2.sublist (List.filter_sublist l)⟩

theorem pairwise_ne_unique {l : List MediaFile}
    (h : List.Pairwise (fun a b => a.id ≠ b.id) l) :
    ∀ r ∈ l, ∀ q ∈ l, q.id = r.id → q = r := by
  induction l with
  | nil =>
    intro r hr
    simp at hr
  | cons x t ih =>
    rw [List.pairwise_cons] at h
    intro r hr q hq hid
    rcases List.mem_cons.mp hr with hr | hr <;> rcases List.mem_cons.mp hq with hq | hq
    · rw [hr, hq]
    · rw [hr] at hid
      exact absurd hid.symm (h.1 q hq)
    · rw [hq] at hid
      exact absurd hid (h.1 r hr)
    · exact ih h.2 r hr q hq hid

/-- One state-mutating server operation: the upload, delete and rename routes;
read-only routes leave the state unchanged and are not listed. -/
inductive Op where
  | upVideo (file : Option UploadedFile) (probe : Option (Option Int × Option String))
      (mimeFallback : String) (now : Nat)
  | upPdf (file : Option UploadedFile) (pages : Nat) (now : Nat)
  | upAudio (file : Option UploadedFile)
  | upWebgl (file : Option UploadedFile) (bodyName : Option BodyVal)
      (bodyDesc : Option String) (now : Nat)
  | delVideo (idStr : String)
  | delPdf (idStr : String)
  | delRecording (idStr : String)
  | delAsset (idStr : String)
  | patchRecording (idStr : String) (nameVal : Option BodyVal)

/-- Resulting state of an operation. -/
def applyOp (o : Op) (s : SState) : SState :=
  match o with
  | .upVideo f p m n => (uploadVideoRoute f p m n s).2
  | .upPdf f pg n => (uploadPdfRoute f pg n s).2
  | .upAudio f => (uploadRecordingRoute f s).2
  | .upWebgl f bn bd n => (webglUploadRoute f bn bd n s).2
  | .delVideo i => (deleteVideo i s).2
  | .delPdf i => (deletePdf i s).2
  | .delRecording i => (deleteRecording i s).2
  | .delAsset i => (deleteAsset i s).2
  | .patchRecording i nv => (renameRecording i nv s).2

/-- States reachable from a freshly constructed server. -/
inductive Reachable : SState → Prop where
  | init : Reachable initState
  | step (o : Op) (s : SState) : Reachable s → Reachable (applyOp o s)

theorem filter_true_media (l : List MediaFile) : l.filter (fun _ => true) = l := by
  simp

theorem deleteVideo_media (i : String) (s : SState) :
    (∃ p, (deleteVideo i s).2.mediaFiles = s.mediaFiles.filter p) ∧
    (deleteVideo i s).2.nextMediaId = s.nextMediaId := by
  constructor
  · simp only [deleteVideo, deleteMediaFile]
    (repeat' split) <;> first
      | exact ⟨_, rfl⟩
      | exact ⟨fun _ => true, (filter_true_media _).symm⟩
  · simp only [deleteVideo, deleteMediaFile]
    (repeat' split) <;> rfl

theorem deletePdf_media (i : String) (s : SState) :
    (∃ p, (deletePdf i s).2.mediaFiles = s.mediaFiles.filter p) ∧
    (deletePdf i s).2.nextMediaId = s.nextMediaId := by
  constructor
  · simp only [deletePdf, deleteMediaFile]
    (repeat' split) <;> first
      | exact ⟨_, rfl⟩
      | exact ⟨fun _ => true, (filter_true_media _).symm⟩
  · simp only [deletePdf, deleteMediaFile]
    (repeat' split) <;> rfl

theorem deleteRecording_media (i : String) (s : SState) :
    (deleteRecording i s).2.mediaFiles = s.mediaFiles ∧
    (deleteRecording i s).2.nextMediaId = s.nextMediaId := by
  constructor <;> (simp only [deleteRecording, deleteAudioRecording] ; (repeat' split) <;> rfl)

theorem deleteAsset_media (i : String) (s : SState) :
    (deleteAsset i s).2.mediaFiles = s.mediaFiles ∧
    (deleteAsset i s).2.nextMediaId = s.nextMediaId := by
  constructor <;> (simp only [deleteAsset, deleteWebGLAsset] ; (repeat' split) <;> rfl)

theorem renameRecording_media (i : String) (nv : Option BodyVal) (s : SState) :
    (renameRecording i nv s).2.mediaFiles = s.mediaFiles ∧
    (renameRecording i nv s).2.nextMediaId = s.nextMediaId := by
  constructor <;>
    (simp only [renameRecording, updateAudioRecordingName] ; (repeat' split) <;> rfl)

theorem uploadRecordingRoute_media (f : Option UploadedFile) (s : SState) :
    (uploadRecordingRoute f s).2.mediaFiles = s.mediaFiles ∧
    (uploadRecordingRoute f s).2.nextMediaId = s.nextMediaId := by
  constructor <;> (simp only [uploadRecordingRoute] ; (repeat' split) <;> rfl)

theorem webglUploadRoute_media (f : Option UploadedFile) (bn : Option BodyVal)
    (bd : Option String) (now : Nat) (s : SState) :
    (webglUploadRoute f bn bd now s).2.mediaFiles = s.mediaFiles ∧
    (webglUploadRoute f bn bd now s).2.nextMediaId = s.nextMediaId := by
  constructor <;>
    (simp only [webglUploadRoute, createWebGLAsset] ; (repeat' split) <;> rfl)

theorem mediaInv_applyOp (o : Op) (s : SState) (h : MediaInv s) : MediaInv (applyOp o s) := by
  cases o with
  | upVideo f probe mf now =>
    cases f with
    | none => exact h
    | some f =>
      have hne : ("video" : String) ≠ "pdf" := by decide
      exact mediaInvOn_append h ⟨fun _ => ⟨rfl, rfl, rfl⟩, fun hpdf => absurd hpdf hne⟩ rfl
  | upPdf f pg now =>
    cases f with
    | none => exact h
    | some f =>
      have hne : ("pdf" : String) ≠ "video" := by decide
      exact mediaInvOn_append h ⟨fun hvid => absurd hvid hne, fun _ => ⟨rfl, rfl, rfl⟩⟩ rfl
  | upAudio f =>
    have hm := uploadRecordingRoute_media f s
    unfold MediaInv
    rw [show applyOp (Op.upAudio f) s = (uploadRecordingRoute f s).2 from rfl, hm.1, hm.2]
    exact h
  | upWebgl f bn bd now =>
    have hm := webglUploadRoute_media f bn bd now s
    unfold MediaInv
    rw [show applyOp (Op.upWebgl f bn bd now) s = (webglUploadRoute f bn bd now s).2 from rfl,
      hm.1, hm.2]
    exact h
  | delVideo i =>
    obtain ⟨⟨p, hp⟩, hk⟩ := deleteVideo_media i s
    unfold MediaInv
    rw [show applyOp (Op.delVideo i) s = (deleteVideo i s).2 from rfl, hp, hk]
    exact mediaInvOn_filter p h
  | delPdf i =>
    obtain ⟨⟨p, hp⟩, hk⟩ := deletePdf_media i s
    unfold MediaInv
    rw [show applyOp (Op.delPdf i) s = (deletePdf i s).2 from rfl, hp, hk]
    exact mediaInvOn_filter p h
  | delRecording i =>
    have hm := deleteRecording_media i s
    unfold MediaInv
    rw [show applyOp (Op.delRecording i) s = (deleteRecording i s).2 from rfl, hm.1, hm.2]
    exact h
  | delAsset i =>
    have hm := deleteAsset_media i s
    unfold MediaInv
    rw [show applyOp (Op.delAsset i) s = (deleteAsset i s).2 from rfl, hm.1, hm.2]
    exact h
  | patchRecording i nv =>
    have hm := renameRecording_media i nv s
    unfold MediaInv
    rw [show applyOp (Op.patchRecording i nv) s = (renameRecording i nv s).2 from rfl,
      hm.1, hm.2]
    exact h

theorem mediaFile_immutable_step (o : Op) (s : SState) (h : MediaInv s) :
    ∀ r ∈ s.mediaFiles, ∀ q ∈ (applyOp o s).mediaFiles, q.id = r.id → q = r := by
  intro r hr q hq hid
  cases o with
  | upVideo f probe mf now =>
    cases f with
    | none => exact pairwise_ne_unique h.2 r hr q hq hid
    | some f =>
      rcases List.mem_append.mp hq with hq | hq
      · exact pairwise_ne_unique h.2 r hr q hq hid
      · rw [List.mem_singleton] at hq
        have hlt := (h.1 r hr).2
        have hqid : q.id = s.nextMediaId := by rw [hq]
        exact (by omega : False).elim
  | upPdf f pg now =>
    cases f with
    | none => exact pairwise_ne_unique h.2 r hr q hq hid
    | some f =>
      rcases List.mem_append.mp hq with hq | hq
      · exact pairwise_ne_unique h.2 r hr q hq hid
      · rw [List.mem_singleton] at hq
        have hlt := (h.1 r hr).2
        have hqid : q.id = s.nextMediaId := by rw [hq]
        exact (by omega : False).elim
  | upAudio f =>
    have hm := uploadRecordingRoute_media f s
    have hq2 : q ∈ (uploadRecordingRoute f s).2.mediaFiles := hq
    rw [hm.1] at hq2
    exact pairwise_ne_unique h.2 r hr q hq2 hid
  | upWebgl f bn bd now =>
    have hm := webglUploadRoute_media f bn bd now s
    have hq2 : q ∈ (webglUploadRoute f bn bd now s).2.mediaFiles := hq
    rw [hm.1] at hq2
    exact pairwise_ne_unique h.2 r hr q hq2 hid
  | delVideo i =>
    obtain ⟨⟨p, hp⟩, _⟩ := deleteVideo_media i s
    have hq2 : q ∈ (deleteVideo i s).2.mediaFiles := hq
    rw [hp] at hq2
    exact pairwise_ne_unique h.2 r hr q (List.mem_filter.mp hq2).1 hid
  | delPdf i =>
    obtain ⟨⟨p, hp⟩, _⟩ := deletePdf_media i s
    have hq2 : q ∈ (deletePdf i s).2.mediaFiles := hq
    rw [hp] at hq2
    exact pairwise_ne_unique h.2 r hr q (List.mem_filter.mp hq2).1 hid
  | delRecording i =>
    have hm := deleteRecording_media i s
    have hq2 : q ∈ (deleteRecording i s).2.mediaFiles := hq
    rw [hm.1] at hq2
    exact pairwise_ne_unique h.2 r hr q hq2 hid
  | delAsset i =>
    have hm := deleteAsset_media i s
    have hq2 : q ∈ (deleteAsset i s).2.mediaFiles := hq
    rw [hm.1] at hq2
    exact pairwise_ne_unique h.2 r hr q hq2 hid
  | patchRecording i nv =>
    have hm := renameRecording_media i nv s
    have hq2 : q ∈ (renameRecording i nv s).2.mediaFiles := hq
    rw [hm.1] at hq2
    exact pairwise_ne_unique h.2 r hr q hq2 hid

theorem reachable_mediaInv : ∀ s, Reachable s → MediaInv s := by
  intro s h
  induction h with
  | init => exact ⟨fun r hr => absurd hr (List.not_mem_nil r), List.Pairwise.nil⟩
  | step o s hs ih => exact mediaInv_applyOp o s ih

/-- C9: in every reachable server state, every MediaFile record is well-shaped
(video records have duration and resolution and a null pageCount, pdf records
have a pageCount and null duration and resolution), and no operation mutates
any field of an existing MediaFile record: a record present before and after
an operation under the same id is unchanged. -/
theorem mediaFile_shape_and_immutability :
    (∀ s, Reachable s → ∀ r ∈ s.mediaFiles, mediaShape r) ∧
    (∀ s, Reachable s → ∀ (o : Op), ∀ r ∈ s.mediaFiles,
      ∀ q ∈ (applyOp o s).mediaFiles, q.id = r.id → q = r) :=
  ⟨fun s hs r hr => ((reachable_mediaInv s hs).1 r hr).1,
    fun s hs o => mediaFile_immutable_step o s (reachable_mediaInv s hs)⟩

def c9File : UploadedFile := ⟨"video-9.mp4", "clip.mp4", "video/mp4", [1, 2, 3]⟩

def c9Op : Op := Op.upVideo (some c9File) (some (some 30, some "1920x1080")) "video/mp4" 5

def c9S1 : SState := applyOp c9Op initState

def c9Rec : MediaFile :=
  ⟨1, "video-9.mp4", "clip.mp4", "video/mp4", 3, "video", 5, some 30, some "1920x1080", none⟩

/-- Witness for C9: the record created by one video upload on the fresh state
is well-shaped and survives a further operation unchanged. -/
theorem mediaFile_shape_and_immutability_witness :
    c9Rec ∈ c9S1.mediaFiles ∧ mediaShape c9Rec ∧ c9Rec = c9Rec := by
  have hreach : Reachable c9S1 := Reachable.step c9Op initState Reachable.init
  have hmem : c9Rec ∈ c9S1.mediaFiles := by decide
  have hmem2 : c9Rec ∈ (applyOp (Op.delAsset "1") c9S1).mediaFiles := by decide
  exact ⟨hmem, mediaFile_shape_and_immutability.1 c9S1 hreach c9Rec hmem,
    mediaFile_shape_and_immutability.2 c9S1 hreach (Op.delAsset "1") c9Rec hmem c9Rec hmem2
      rfl⟩
